import Mathlib

/-!
watermillsqlite: a verification development.

A shallow embedding of the SQLite Pub/Sub drivers `wmsqlitezombiezen` and
`wmsqlitemodernc`: Go strings are Lean strings (sequences of code points),
the Go `error` interface is `Option GoError` (`none` is `nil`), Go `int` and
`time.Duration` are `Int`, and a database connection is a log of the statements
it was handed together with an oracle for what the store answers.
-/

namespace Watermillsqlite

/-! ## Go error values -/

/-- Error enumerates the driver errors, as declared in `wmsqlitemodernc/errors.go`;
`wmsqlitezombiezen` names the same sentinel `ErrInvalidTopicName` in `topic.go`. -/
inductive Error where
  | ErrUnknown
  | ErrDatabaseConnectionIsNil
  | ErrPublisherIsClosed
  | ErrSubscriberIsClosed
  | ErrAttemptedTableInitializationWithinTransaction
  | ErrInvalidTopicName
  deriving DecidableEq, Repr

/-- GoError is a Go `error` value: a package sentinel, an `errors.New` value
(identified by its text), a `fmt.Errorf` value whose format has one `%w` verb
(the format, the arguments of the other verbs, and the wrapped error), an
`errors.Join` of one or two non-nil errors, or a `*sqlite.Error` of
`modernc.org/sqlite` with its result code and text. -/
inductive GoError where
  | sentinel (e : Error)
  | new (text : String)
  | errorf (format : String) (args : List String) (wrapped : GoError)
  | join1 (a : GoError)
  | join2 (a b : GoError)
  | sqliteError (code : Int) (text : String)
  deriving DecidableEq, Repr

/-- The `errors.Is(err, target)` test for a package sentinel `target`: it walks
the `Unwrap` tree of `err`. An `errors.New` value is never a sentinel. -/
def errorsIs : GoError → Error → Bool
  | .sentinel e, target => decide (e = target)
  | .new _, _ => false
  | .errorf _ _ wrapped, target => errorsIs wrapped target
  | .join1 a, target => errorsIs a target
  | .join2 a b, target => errorsIs a target || errorsIs b target
  | .sqliteError _ _, _ => false

/-- The `errors.As(err, &sqlError)` test for a target of type `*sqlite.Error`:
the result code of the first such error in the `Unwrap` tree of `err`, depth
first, if there is one. -/
def errorsAsSqlite : GoError → Option Int
  | .sentinel _ => none
  | .new _ => none
  | .errorf _ _ wrapped => errorsAsSqlite wrapped
  | .join1 a => errorsAsSqlite a
  | .join2 a b => (errorsAsSqlite a).orElse fun _ => errorsAsSqlite b
  | .sqliteError code _ => some code

/-- The `errors.Join(a, b)` call: nil arguments are dropped, and the result is
nil when both are. -/
def errorsJoin : Option GoError → Option GoError → Option GoError
  | none, none => none
  | some a, none => some (.join1 a)
  | none, some b => some (.join1 b)
  | some a, some b => some (.join2 a b)

/-! ## Go library values -/

/-- The generic `cmpOrTODO` (and `cmp.Or`): the first argument that is not the
zero value, or the zero value. -/
def cmpOr {α : Type} [DecidableEq α] (zero : α) : List α → α
  | [] => zero
  | val :: vals => if val ≠ zero then val else cmpOr zero vals

/-- A `time.Duration`: a count of nanoseconds. -/
abbrev Duration := Int

def Nanosecond : Duration := 1
def Microsecond : Duration := 1000 * Nanosecond
def Millisecond : Duration := 1000 * Microsecond
def Second : Duration := 1000 * Millisecond
def Minute : Duration := 60 * Second
def Hour : Duration := 60 * Minute

/-- Whether the characters `p` start the characters `s`. -/
def startsWithChars : List Char → List Char → Bool
  | _, [] => true
  | [], _ :: _ => false
  | c :: s, d :: p => decide (c = d) && startsWithChars s p

/-- Whether `p` occurs in `s` at some position. -/
def containsChars : List Char → List Char → Bool
  | [], p => startsWithChars [] p
  | c :: s, p => startsWithChars (c :: s) p || containsChars s p

/-- The `strings.Contains(s, substr)` call. -/
def stringsContains (s substr : String) : Bool :=
  containsChars s.data substr.data

/-- A Go channel on which nothing is ever sent: the nil channel, an open
channel, or a closed one. -/
inductive Chan where
  | nil
  | isOpen
  | isClosed
  deriving DecidableEq, Repr

/-- Whether a receive from the channel is ready, which decides a `select` with
a `default` case: only a closed channel is ready; a nil channel never is. -/
def Chan.recvReady : Chan → Bool
  | .isClosed => true
  | .isOpen => false
  | .nil => false

/-- A `watermill.LoggerAdapter`, as far as the drivers use it: a name and the
fields added by `With`. -/
structure Logger where
  name : String
  fields : List (String × String)
  deriving DecidableEq, Repr

/-- The `logger.With(fields)` call. -/
def Logger.With (l : Logger) (fields : List (String × String)) : Logger :=
  { l with fields := l.fields ++ fields }

/-- The `watermill.NewSlogLogger(nil)` value. -/
def NewSlogLogger : Logger := { name := "slog", fields := [] }

namespace wmsqlitezombiezen

/-! ## Topic names (`wmsqlitezombiezen/topic.go`) -/

/-- One item of a bracketed character class of a regular expression. -/
inductive ClassItem where
  | range (lo hi : Char)
  | lit (c : Char)
  deriving DecidableEq, Repr

/-- A regular expression that is a single bracketed character class. -/
structure CharClassRegexp where
  negated : Bool
  items : List ClassItem
  deriving DecidableEq, Repr

/-- Whether a code point is listed by a class item. -/
def ClassItem.has (c : Char) : ClassItem → Bool
  | .range lo hi => decide (lo.toNat ≤ c.toNat) && decide (c.toNat ≤ hi.toNat)
  | .lit d => decide (c = d)

/-- Whether the class matches one code point. -/
def CharClassRegexp.matchRune (re : CharClassRegexp) (c : Char) : Bool :=
  if re.negated then !(re.items.any (ClassItem.has c)) else re.items.any (ClassItem.has c)

/-- The `MatchString` method: an unanchored single-class expression matches when
some code point of the string matches the class. -/
def CharClassRegexp.MatchString (re : CharClassRegexp) (s : String) : Bool :=
  s.data.any re.matchRune

/-- The compiled expression `[^A-Za-z0-9\-\$\:\.\_]`. -/
def disallowedTopicCharacters : CharClassRegexp :=
  { negated := true
    items := [.range 'A' 'Z', .range 'a' 'z', .range '0' '9',
              .lit '-', .lit '$', .lit ':', .lit '.', .lit '_'] }

/-- validateTopicName checks if the topic name contains any characters which
could be unsuitable for the SQL Pub/Sub. A Go string that is not valid UTF-8 has
no counterpart here; the expression reads each of its stray bytes as U+FFFD,
which is outside the class, so such a name is rejected as well. -/
def validateTopicName (topic : String) : Option GoError :=
  if disallowedTopicCharacters.MatchString topic then
    some (.errorf "invalid topic name %q: %w" [topic] (.sentinel .ErrInvalidTopicName))
  else if topic = "" then
    some (.errorf "empty topic name %q: %w" [topic] (.sentinel .ErrInvalidTopicName))
  else
    none

/-- The character class `[A-Za-z0-9-$:._]` as the specification words it: an
ASCII letter, an ASCII digit, or one of the five punctuation marks. -/
def InTopicClass (c : Char) : Prop :=
  c.isAlphanum = true ∨ c ∈ ['-', '$', ':', '.', '_']

instance (c : Char) : Decidable (InTopicClass c) := by
  unfold InTopicClass; infer_instance

/-! ## The SQLite connection (`zombiezen.com/go/sqlite`) -/

/-- ConnEvent is one use of a connection: a statement run to completion, or a
statement compiled for later use. -/
inductive ConnEvent where
  | executed (sql : String)
  | prepared (sql : String)
  deriving DecidableEq, Repr

/-- The text of the statement of an event. -/
def ConnEvent.sql : ConnEvent → String
  | .executed q => q
  | .prepared q => q

/-- Conn is a `*sqlite.Conn`: the store behind it is an oracle that answers an
event, given the events before it, with nil or an error; the connection records
every event it was handed. -/
structure Conn where
  answer : List ConnEvent → ConnEvent → Option GoError
  closeAnswer : Option GoError
  events : List ConnEvent
  interruptSet : Bool
  closed : Bool

/-- The `sqlitex.ExecuteTransient(conn, query, nil)` call. -/
def ExecuteTransient (conn : Conn) (query : String) : Conn × Option GoError :=
  ({ conn with events := conn.events ++ [.executed query] },
   conn.answer conn.events (.executed query))

/-- The `conn.Prepare(query)` call; the statement handle is its text. -/
def Conn.Prepare (conn : Conn) (query : String) : Conn × Option GoError :=
  ({ conn with events := conn.events ++ [.prepared query] },
   conn.answer conn.events (.prepared query))

/-- The `conn.Close()` call. -/
def Conn.Close (conn : Conn) : Conn × Option GoError :=
  ({ conn with closed := true }, conn.closeAnswer)

/-- The `conn.SetInterrupt(ctx.Done())` call. -/
def Conn.SetInterrupt (conn : Conn) : Conn :=
  { conn with interruptSet := true }

/-- The statements a connection has run to completion, in order. -/
def Conn.executedStatements (conn : Conn) : List String :=
  conn.events.filterMap fun
    | .executed q => some q
    | .prepared _ => none

/-! ## Schema bootstrap (`wmsqlitezombiezen/topic.go`) -/

/-- The text of the statement that creates the messages table. -/
def createMessagesTableSQL (messagesTableName : String) : String :=
  "CREATE TABLE IF NOT EXISTS '" ++ messagesTableName ++ "' (\n\t\t\t'offset' INTEGER NOT NULL PRIMARY KEY AUTOINCREMENT,\n\t\t\tuuid TEXT NOT NULL,\n\t\t\tcreated_at TEXT NOT NULL,\n\t\t\tpayload BLOB NOT NULL,\n\t\t\tmetadata JSON NOT NULL\n\t\t);"

/-- The text of the statement that creates the offsets table. -/
def createOffsetsTableSQL (offsetsTableName : String) : String :=
  "CREATE TABLE IF NOT EXISTS '" ++ offsetsTableName ++ "' (\n\t\t\tconsumer_group TEXT NOT NULL,\n\t\t\toffset_acked INTEGER NOT NULL,\n\t\t\tlocked_until INTEGER NOT NULL,\n\t\t\tPRIMARY KEY(consumer_group)\n\t\t);"

/-- The function `createTopicAndOffsetsTablesIfAbsent` of `topic.go`. -/
def createTopicAndOffsetsTablesIfAbsent (conn : Conn)
    (messagesTableName offsetsTableName : String) : Conn × Option GoError :=
  match validateTopicName messagesTableName with
  | some err => (conn, some err)
  | none =>
    match ExecuteTransient conn (createMessagesTableSQL messagesTableName) with
    | (conn, some err) => (conn, some err)
    | (conn, none) => ExecuteTransient conn (createOffsetsTableSQL offsetsTableName)

/-! ## Table names (`wmsqlitezombiezen/wmsqlitezombiezen.go`) -/

/-- TableNameGenerator creates a table name for a given topic. -/
abbrev TableNameGenerator := String → String

/-- TableNameGenerators holds two functions for generating topic and offsets
table names; `none` is a nil function. -/
structure TableNameGenerators where
  Topic : Option TableNameGenerator := none
  Offsets : Option TableNameGenerator := none

/-- WithDefaultGeneratorsInsteadOfNils returns generators with the defaults in
place of the ones left nil. -/
def TableNameGenerators.WithDefaultGeneratorsInsteadOfNils (t : TableNameGenerators) :
    TableNameGenerators :=
  let t : TableNameGenerators :=
    if t.Topic.isNone then { t with Topic := some fun topic => "watermill_" ++ topic } else t
  let t : TableNameGenerators :=
    if t.Offsets.isNone then
      { t with Offsets := some fun topic => "watermill_offsets_" ++ topic }
    else t
  t

/-! ## Subscriber (`wmsqlitezombiezen/subscriber.go`) -/

/-- SubscriberOptions defines options for creating a subscriber. -/
structure SubscriberOptions where
  ConsumerGroup : String := ""
  BatchSize : Int := 0
  TableNameGenerators : TableNameGenerators := {}
  PollInterval : Duration := 0
  AckDeadline : Option Duration := none
  InitializeSchema : Bool := false
  Logger : Option Logger := none

/-- What `NackChannel()` returns: a timer channel that fires after a duration,
or the nil channel that blocks forever. -/
inductive NackChannel where
  | after (d : Duration)
  | nilChannel
  deriving DecidableEq, Repr

/-- The subscriber of the package. `Subscriptions` is the counter of the wait
group. -/
structure subscriber where
  ConnectionDSN : String
  UUID : String
  PollInterval : Duration
  InitializeSchema : Bool
  ConsumerGroup : String
  BatchSize : Int
  NackChannel : NackChannel
  Closed : Chan
  TopicTableNameGenerator : TableNameGenerator
  OffsetsTableNameGenerator : TableNameGenerator
  Logger : Logger
  Subscriptions : Nat

/-- The part of `NewSubscriber` that selects the nack channel from
`options.AckDeadline`. -/
def selectNackChannel : Option Duration → Except GoError NackChannel
  | none => .ok (.after (Second * 30))
  | some deadline =>
    if deadline < 0 then .error (.new "AckDeadline must be above 0")
    else if deadline = 0 then .ok .nilChannel
    else .ok (.after deadline)

/-- NewSubscriber creates a new subscriber with the given options. `ID` is the
value of `uuid.New().String()`. -/
def NewSubscriber (connectionDSN : String) (options : SubscriberOptions) (ID : String) :
    Except GoError subscriber :=
  if connectionDSN = "" then
    .error (.new "database connection DSN is empty")
  else if stringsContains connectionDSN ":memory:" then
    .error (.new "sqlite: \":memory:\" does not work with multiple connections, use \"file::memory:?mode=memory&cache=shared")
  else
    match (if options.ConsumerGroup ≠ "" then validateTopicName options.ConsumerGroup
           else none) with
    | some err =>
      .error (.errorf
        "consumer group name must follow the same validation rules are topic names: %w" [] err)
    | none =>
      if options.BatchSize < 0 then
        .error (.new "BatchSize must be greater than 0")
      else if options.BatchSize > 1000000 then
        .error (.new "BatchSize must be less than a million")
      else if options.PollInterval ≠ 0 ∧ options.PollInterval < Millisecond then
        .error (.new "PollInterval must be greater than one millisecond")
      else if options.PollInterval > Hour * 24 * 7 then
        .error (.new "PollInterval must be less than a week")
      else
        match selectNackChannel options.AckDeadline with
        | .error err => .error err
        | .ok nackChannel =>
          let tng := options.TableNameGenerators.WithDefaultGeneratorsInsteadOfNils
          .ok
            { ConnectionDSN := connectionDSN
              UUID := ID
              PollInterval := cmpOr 0 [options.PollInterval, Second]
              InitializeSchema := options.InitializeSchema
              ConsumerGroup := options.ConsumerGroup
              BatchSize := cmpOr 0 [options.BatchSize, 100]
              NackChannel := nackChannel
              Closed := .isOpen
              TopicTableNameGenerator := tng.Topic.getD id
              OffsetsTableNameGenerator := tng.Offsets.getD id
              Logger := ((options.Logger).getD NewSlogLogger).With
                [("subscriber_id", ID), ("consumer_group", options.ConsumerGroup)]
              Subscriptions := 0 }

/-- IsClosed returns true if the subscriber is closed: a `select` on the
`Closed` channel with a `default` case. -/
def subscriber.IsClosed (s : subscriber) : Bool :=
  s.Closed.recvReady

/-- The lease grace period of `Subscribe`, in seconds. -/
def graceSeconds : Int := 5

/-- The text of the zero-value insertion of `Subscribe`. -/
def insertZeroOffsetSQL (offsetsTableName consumerGroup : String) : String :=
  "\n\t\t\tINSERT INTO '" ++ offsetsTableName ++ "' (consumer_group, offset_acked, locked_until)\n\t\t\tVALUES (\"" ++ consumerGroup ++ "\", 0, 0)\n\t\t\tON CONFLICT(consumer_group) DO NOTHING;\n\t\t"

/-- The text of the lease-acquire statement of `Subscribe`. -/
def lockConsumerGroupSQL (offsetsTableName : String) (grace : Int) (consumerGroup : String) :
    String :=
  "UPDATE '" ++ offsetsTableName ++ "' SET locked_until=(unixepoch()+" ++ toString grace ++ ") WHERE consumer_group=\"" ++ consumerGroup ++ "\" AND locked_until < unixepoch() RETURNING offset_acked"

/-- The text of the lease-extend statement of `Subscribe`. -/
def extendLockSQL (offsetsTableName : String) (grace : Int) (consumerGroup : String) : String :=
  "UPDATE '" ++ offsetsTableName ++ "' SET locked_until=(unixepoch()+" ++ toString grace ++ "), offset_acked=? WHERE consumer_group=\"" ++ consumerGroup ++ "\" AND offset_acked=? AND locked_until>=unixepoch() RETURNING COALESCE(locked_until, 0)"

/-- The text of the batch query of `Subscribe`. -/
def nextMessageBatchSQL (messagesTableName : String) (batchSize : Int) : String :=
  "\n\t\tSELECT \"offset\", uuid, payload, metadata\n\t\tFROM '" ++ messagesTableName ++ "'\n\t\tWHERE \"offset\">? ORDER BY offset LIMIT " ++ toString batchSize ++ ";\n\t"

/-- The text of the acknowledge statement of `Subscribe`. -/
def acknowledgeMessagesSQL (offsetsTableName consumerGroup : String) : String :=
  "\n\t\tUPDATE '" ++ offsetsTableName ++ "' SET offset_acked=?, locked_until=0 WHERE consumer_group=\"" ++ consumerGroup ++ "\" AND offset_acked = ?;\n\t"

/-- The subscription that `Subscribe` builds; a ticker is its period and a
prepared statement is its text. -/
structure subscription where
  Connection : Conn
  pollTicker : Duration
  lockTicker : Duration
  lockDuration : Duration
  ackChannel : NackChannel
  stmtLockConsumerGroup : String
  stmtExtendLock : String
  stmtNextMessageBatch : String
  stmtAcknowledgeMessages : String
  destination : Chan
  logger : Logger

/-- What a call of `Subscribe` leaves behind: the subscriber, the connection it
opened (if any) in its last state, the subscription whose runner it started (its
`destination` is the channel returned), and the error returned. -/
structure SubscribeResult where
  s : subscriber
  conn : Option Conn
  running : Option subscription
  err : Option GoError

/-- The `io.ErrClosedPipe` value. -/
def ioErrClosedPipe : GoError := .new "io: read/write on closed pipe"

/-- An error return of `Subscribe` after the connection was opened: the deferred
function joins the error with the one of `conn.Close()`. -/
def subscribeFail (s : subscriber) (conn : Conn) (err : GoError) : SubscribeResult :=
  let (conn, closeErr) := conn.Close
  { s := s, conn := some conn, running := none, err := errorsJoin (some err) closeErr }

/-- Subscribe streams messages from the topic. `OpenConn` is `sqlite.OpenConn`. -/
def subscriber.Subscribe (OpenConn : String → Except GoError Conn) (s : subscriber)
    (topic : String) : SubscribeResult :=
  if s.IsClosed then
    { s := s, conn := none, running := none, err := some ioErrClosedPipe }
  else
    match OpenConn s.ConnectionDSN with
    | .error err => { s := s, conn := none, running := none, err := some err }
    | .ok conn =>
      let conn := conn.SetInterrupt
      let messagesTableName := s.TopicTableNameGenerator topic
      let offsetsTableName := s.OffsetsTableNameGenerator topic
      match (if s.InitializeSchema then
               createTopicAndOffsetsTablesIfAbsent conn messagesTableName offsetsTableName
             else (conn, none)) with
      | (conn, some err) =>
        subscribeFail s conn (.errorf "unable to initialize schema: %w" [] err)
      | (conn, none) =>
      match ExecuteTransient conn (insertZeroOffsetSQL offsetsTableName s.ConsumerGroup) with
      | (conn, some err) =>
        subscribeFail s conn (.errorf "failed zero-value insertion: %w" [] err)
      | (conn, none) =>
      let stmtLockConsumerGroup :=
        lockConsumerGroupSQL offsetsTableName graceSeconds s.ConsumerGroup
      match conn.Prepare stmtLockConsumerGroup with
      | (conn, some err) =>
        subscribeFail s conn (.errorf "invalid lock consumer group statement: %w" [] err)
      | (conn, none) =>
      let stmtExtendLock := extendLockSQL offsetsTableName graceSeconds s.ConsumerGroup
      match conn.Prepare stmtExtendLock with
      | (conn, some err) =>
        subscribeFail s conn (.errorf "invalid extend lock statement: %w" [] err)
      | (conn, none) =>
      let stmtNextMessageBatch := nextMessageBatchSQL messagesTableName s.BatchSize
      match conn.Prepare stmtNextMessageBatch with
      | (conn, some err) =>
        subscribeFail s conn (.errorf "invalid message batch query statement: %w" [] err)
      | (conn, none) =>
      let stmtAcknowledgeMessages := acknowledgeMessagesSQL offsetsTableName s.ConsumerGroup
      match conn.Prepare stmtAcknowledgeMessages with
      | (conn, some err) =>
        subscribeFail s conn (.errorf "invalid acknowledge messages statement: %w" [] err)
      | (conn, none) =>
      let sub : subscription :=
        { Connection := conn
          pollTicker := s.PollInterval
          lockTicker := Second * (graceSeconds - 1)
          lockDuration := Second * (graceSeconds - 1)
          ackChannel := s.NackChannel
          stmtLockConsumerGroup := stmtLockConsumerGroup
          stmtExtendLock := stmtExtendLock
          stmtNextMessageBatch := stmtNextMessageBatch
          stmtAcknowledgeMessages := stmtAcknowledgeMessages
          destination := .isOpen
          logger := s.Logger.With [("topic", topic)] }
      { s := { s with Subscriptions := s.Subscriptions + 1 }
        conn := some conn
        running := some sub
        err := none }

/-- Close terminates the subscriber: it closes the `Closed` channel unless it is
closed already. Waiting for the runners is not part of the state. -/
def subscriber.Close (s : subscriber) : subscriber × Option GoError :=
  if !s.IsClosed then ({ s with Closed := .isClosed }, none) else (s, none)

/-- A store that answers nil to every statement, with a connection that closes
without error. -/
def acceptingConn : Conn :=
  { answer := fun _ _ => none, closeAnswer := none, events := [], interruptSet := false,
    closed := false }

/-! ## The offsets table and the lease statements of `Subscribe` -/

/-- One row of an offsets table: `consumer_group` is a TEXT column and the
primary key, `offset_acked` and `locked_until` (seconds since the epoch) are
INTEGER columns, and `rowid` is the row identifier that SQLite keeps. -/
structure OffsetsRow where
  rowid : Int
  consumer_group : String
  offset_acked : Int
  locked_until : Int
  deriving DecidableEq, Repr

/-- What the statements leave to the SQLite engine: whether a double-quoted
token that names no column is read as a string literal (the legacy setting; an
engine without it refuses the statement), and its comparison `=` of a value of a
TEXT column with a value of an INTEGER column. -/
structure Engine where
  doubleQuotedStrings : Bool
  textEqualsInteger : String → Int → Bool

/-- What SQLite takes a double-quoted token in the `WHERE` clause of a
statement on an offsets table for: one of the columns of the table, the row
identifier, or a string literal. -/
inductive QuotedToken where
  | consumerGroupColumn
  | offsetAckedColumn
  | lockedUntilColumn
  | rowidColumn
  | stringLiteral (s : String)
  deriving DecidableEq, Repr

/-- A string with its ASCII capital letters made small: SQLite compares
identifiers without regard to ASCII case. -/
def asciiLower (s : String) : String :=
  String.mk (s.data.map Char.toLower)

/-- How SQLite resolves the token `"G"` that `Subscribe` splices after
`consumer_group=`: a name of a column of the table is that column, a name of
the row identifier is the row identifier, and any other text is a string. -/
def resolveQuotedToken (G : String) : QuotedToken :=
  if asciiLower G = "consumer_group" then .consumerGroupColumn
  else if asciiLower G = "offset_acked" then .offsetAckedColumn
  else if asciiLower G = "locked_until" then .lockedUntilColumn
  else if asciiLower G = "rowid" ∨ asciiLower G = "_rowid_" ∨ asciiLower G = "oid" then
    .rowidColumn
  else .stringLiteral G

/-- The term `consumer_group="G"` of the statements of `Subscribe`, as a test
on a row; `none` when the engine refuses the statement. The column
`consumer_group` is `NOT NULL`, so it always equals itself. -/
def groupPredicate (engine : Engine) (G : String) : Option (OffsetsRow → Bool) :=
  match resolveQuotedToken G with
  | .consumerGroupColumn => some fun _ => true
  | .offsetAckedColumn => some fun r => engine.textEqualsInteger r.consumer_group r.offset_acked
  | .lockedUntilColumn => some fun r => engine.textEqualsInteger r.consumer_group r.locked_until
  | .rowidColumn => some fun r => engine.textEqualsInteger r.consumer_group r.rowid
  | .stringLiteral s =>
    if engine.doubleQuotedStrings then some fun r => decide (r.consumer_group = s) else none

/-- The statement `stmtLockConsumerGroup` run on an offsets table when the store
clock `unixepoch()` reads `now`:
`UPDATE t SET locked_until=(unixepoch()+grace) WHERE consumer_group="G" AND
locked_until < unixepoch() RETURNING offset_acked`. The result is the table
after the statement and the rows returned, in the order of the table. -/
def stmtLockConsumerGroup (engine : Engine) (grace : Int) (G : String) (now : Int)
    (table : List OffsetsRow) : Option (List OffsetsRow × List Int) :=
  (groupPredicate engine G).map fun p =>
    (table.map fun r =>
       if p r && decide (r.locked_until < now) then { r with locked_until := now + grace }
       else r,
     (table.filter fun r => p r && decide (r.locked_until < now)).map fun r => r.offset_acked)

/-- The statement `stmtExtendLock` run on an offsets table at store time `now`,
with its two bound parameters in order:
`UPDATE t SET locked_until=(unixepoch()+grace), offset_acked=? WHERE
consumer_group="G" AND offset_acked=? AND locked_until>=unixepoch() RETURNING
COALESCE(locked_until, 0)`. -/
def stmtExtendLock (engine : Engine) (grace : Int) (G : String) (now : Int)
    (newAcked oldAcked : Int) (table : List OffsetsRow) : Option (List OffsetsRow × List Int) :=
  (groupPredicate engine G).map fun p =>
    (table.map fun r =>
       if p r && decide (r.offset_acked = oldAcked) && decide (r.locked_until ≥ now) then
         { r with locked_until := now + grace, offset_acked := newAcked }
       else r,
     (table.filter fun r =>
        p r && decide (r.offset_acked = oldAcked) && decide (r.locked_until ≥ now)).map
       fun _ => now + grace)

/-- The statement `stmtAcknowledgeMessages` run on an offsets table, with its
two bound parameters in order:
`UPDATE t SET offset_acked=?, locked_until=0 WHERE consumer_group="G" AND
offset_acked = ?`. -/
def stmtAcknowledgeMessages (engine : Engine) (G : String) (newAcked oldAcked : Int)
    (table : List OffsetsRow) : Option (List OffsetsRow) :=
  (groupPredicate engine G).map fun p =>
    table.map fun r =>
      if p r && decide (r.offset_acked = oldAcked) then
        { r with offset_acked := newAcked, locked_until := 0 }
      else r

/-- An offsets table in which `consumer_group` is a key: no two rows have the
same group. -/
def KeyedByGroup (table : List OffsetsRow) : Prop :=
  ∀ r1 ∈ table, ∀ r2 ∈ table, r1.consumer_group = r2.consumer_group → r1 = r2

/-- The offsets table with a free row of the group `consumer_group` and a row
of the group `other` whose lease runs out at time 102. -/
def twoGroupTable : List OffsetsRow :=
  [{ rowid := 1, consumer_group := "consumer_group", offset_acked := 7, locked_until := 0 },
   { rowid := 2, consumer_group := "other", offset_acked := 3, locked_until := 102 }]

/-! ## What `NewSubscriber` accepts, field by field -/

/-- A connection string that is not empty and does not contain `:memory:`. -/
def ValidDSN (connectionDSN : String) : Prop :=
  connectionDSN ≠ "" ∧ stringsContains connectionDSN ":memory:" = false

/-- A consumer group that is empty or made of characters of the class. -/
def ValidConsumerGroup (group : String) : Prop :=
  group = "" ∨ ∀ c ∈ group.data, InTopicClass c

/-- A batch size from zero to a million. -/
def ValidBatchSize (n : Int) : Prop :=
  0 ≤ n ∧ n ≤ 1000000

/-- A poll interval that is zero, or from one millisecond to seven days, in
nanoseconds. -/
def ValidPollInterval (d : Duration) : Prop :=
  d = 0 ∨ (1000000 ≤ d ∧ d ≤ 604800000000000)

/-- An acknowledgement deadline that is absent or not negative. -/
def ValidAckDeadline : Option Duration → Prop
  | none => True
  | some d => 0 ≤ d

end wmsqlitezombiezen

namespace wmsqlitemodernc

/-! ## The database handle (`database/sql`) -/

/-- A value bound to a parameter of a statement: a string, a byte slice, an
integer, or nil. -/
inductive Value where
  | text (s : String)
  | bytes (b : List UInt8)
  | integer (n : Int)
  | null
  deriving DecidableEq, Repr

/-- One statement handed to a handle: its text and its bound arguments. -/
structure Statement where
  query : String
  args : List Value
  deriving DecidableEq, Repr

/-- DB is a `*sql.DB`: the store behind it is an oracle that answers a
statement, given the statements run before it, with nil or an error; the handle
records the statements it ran and whether it was closed. -/
structure DB where
  answer : List Statement → Statement → Option GoError
  closeAnswer : Option GoError
  executed : List Statement
  closed : Bool

/-- The error of `database/sql` for a call on a closed handle. -/
def errDBClosed : GoError := .new "sql: database is closed"

/-- The `db.Exec(query, args...)` and `db.ExecContext(ctx, query, args...)`
calls: a closed handle runs nothing and returns `errDBClosed`. -/
def DB.Exec (db : DB) (query : String) (args : List Value) : DB × Option GoError :=
  if db.closed then (db, some errDBClosed)
  else
    ({ db with executed := db.executed ++ [{ query := query, args := args }] },
     db.answer db.executed { query := query, args := args })

/-- The `db.Close()` call; closing a closed handle returns nil. -/
def DB.Close (db : DB) : DB × Option GoError :=
  if db.closed then (db, none) else ({ db with closed := true }, db.closeAnswer)

/-! ## Messages (`watermill/message`) -/

/-- A `*message.Message`, as far as the publisher reads it: `Metadata` is a map
from string to string, as its list of entries. -/
structure Message where
  UUID : String
  Metadata : List (String × String)
  Payload : List UInt8
  deriving DecidableEq, Repr

/-! ## Channels and the subscription (`wmsqlitemodernc/subscriber.go`) -/

/-- A channel made by `make`, by its identity. -/
abbrev ChanId := Nat

/-- The subscription that `Subscribe` builds: the ticker is its period, and
`destination` is the outbound channel. -/
structure subscription where
  db : DB
  ticker : Duration
  sqlNextMessageBatch : String
  sqlAcknowledgeMessage : String
  destination : ChanId
  logger : Logger

/-! ## What the package takes from files and libraries outside this development -/

/-- TableNameGenerator is the interface of the package with the one method
`GenerateTableName`; a value is that method. -/
abbrev TableNameGenerator := String → String

/-- Env holds what the modelled files call and do not define: the schema
bootstrap `createTopicAndOffsetsTablesIfAbsent` of the package, its two default
table name generators, the connector (the outcome of its `Connect` call, given
the number of calls made before), `json.Marshal` on a metadata map, the text of
`time.Now().Format(time.RFC3339)` at the message of a given position, and the
error returned by the `Close` method of a subscription. -/
structure Env where
  createTopicAndOffsetsTablesIfAbsent : DB → String → String → DB × Option GoError
  DefaultMessagesTableNameGenerator : TableNameGenerator
  DefaultOffsetsTableNameGenerator : TableNameGenerator
  Connect : Nat → Except GoError DB
  jsonMarshal : List (String × String) → Except GoError (List UInt8)
  now : Nat → String
  subscriptionClose : subscription → Option GoError

/-- The `strings.TrimRight(s, cutset)` call: `s` without its trailing code
points that are in `cutset`. -/
def stringsTrimRight (s cutset : String) : String :=
  String.mk (s.data.reverse.dropWhile fun c => decide (c ∈ cutset.data)).reverse

/-! ## Publisher (`wmsqlitemodernc/publisher.go`) -/

/-- PublisherConfiguration holds the options of `NewPublisher`; the connector is
in the environment, and `none` is a nil generator or logger. -/
structure PublisherConfiguration where
  GenerateMessagesTableName : Option TableNameGenerator := none
  GenerateOffsetsTableName : Option TableNameGenerator := none
  Logger : Option Logger := none

/-- The publisher of the package; `knownTopics` is the set of keys of the map. -/
structure publisher where
  db : DB
  generateMessagesTableName : TableNameGenerator
  generateOffsetsTableName : TableNameGenerator
  logger : Logger
  knownTopics : List String

/-- NewPublisher connects and builds a publisher. -/
def NewPublisher (env : Env) (cfg : PublisherConfiguration) : Except GoError publisher :=
  match env.Connect 0 with
  | .error err => .error err
  | .ok db =>
    .ok
      { db := db
        generateMessagesTableName :=
          cfg.GenerateMessagesTableName.getD env.DefaultMessagesTableNameGenerator
        generateOffsetsTableName :=
          cfg.GenerateOffsetsTableName.getD env.DefaultOffsetsTableNameGenerator
        logger := cfg.Logger.getD NewSlogLogger
        knownTopics := [] }

/-- The loop of `Publish` over the messages from position `i` on: it appends
four values and one `(?,?,?,?),` group per message, and stops at the first
message whose metadata does not encode. -/
def publishLoop (env : Env) :
    Nat → List Message → String → List Value → Except GoError (String × List Value)
  | _, [], query, values => .ok (query, values)
  | i, msg :: messages, query, values =>
    match env.jsonMarshal msg.Metadata with
    | .error err =>
      .error (.errorf "unable to encode message %q metadata to JSON: %w" [msg.UUID] err)
    | .ok metadata =>
      publishLoop env (i + 1) messages (query ++ "(?,?,?,?),")
        (values ++ [.text msg.UUID, .text (env.now i), .bytes msg.Payload, .bytes metadata])

/-- Publish inserts the messages into the messages table of the topic with one
statement. -/
def publisher.Publish (env : Env) (p : publisher) (topic : String) (messages : List Message) :
    publisher × Option GoError :=
  if messages.length = 0 then (p, none)
  else
    let messagesTableName := p.generateMessagesTableName topic
    match (if ¬ topic ∈ p.knownTopics then
             match env.createTopicAndOffsetsTablesIfAbsent p.db messagesTableName
                 (p.generateOffsetsTableName topic) with
             | (db, some err) => ({ p with db := db }, some err)
             | (db, none) => ({ p with db := db, knownTopics := topic :: p.knownTopics }, none)
           else (p, none)) with
    | (p, some err) => (p, some err)
    | (p, none) =>
      let query := "INSERT INTO '" ++ messagesTableName ++
        "' (uuid, created_at, payload, metadata) VALUES "
      match publishLoop env 0 messages query [] with
      | .error err => (p, some err)
      | .ok (query, values) =>
        match p.db.Exec (stringsTrimRight query ",") values with
        | (db, err) => ({ p with db := db }, err)

/-- Close closes the database handle of the publisher. -/
def publisher.Close (p : publisher) : publisher × Option GoError :=
  match p.db.Close with
  | (db, err) => ({ p with db := db }, err)

/-! ## Subscriber (`wmsqlitemodernc/subscriber.go`) -/

/-- The `ErrClosed` value of `subscriber.go`. -/
def ErrClosed : GoError := .new "subscriber is closed"

/-- World is the state outside a subscriber that its methods change: the next
fresh channel identity, the channels that were closed, the number of `Connect`
calls made, the `Loop` goroutines started (the destination of the subscription
and the channel value passed to `Loop`), and the handles closed and dropped on
an error return. -/
structure World where
  nextChan : ChanId
  closedChans : List ChanId
  connectCalls : Nat
  runners : List (ChanId × Option ChanId)
  discarded : List DB

/-- Whether a receive from a channel value is ready, which decides a `select`
with a `default` case: nothing is ever sent, so only a closed channel is ready,
and the nil channel (`none`) never is. -/
def World.recvReady (w : World) : Option ChanId → Bool
  | none => false
  | some ch => decide (ch ∈ w.closedChans)

/-- SubscriberConfiguration holds the options of `NewSubscriber`; the connector
is in the environment, and `none` is a nil generator or logger. -/
structure SubscriberConfiguration where
  ConsumerGroup : String := ""
  BatchSize : Int := 0
  GenerateMessagesTableName : Option TableNameGenerator := none
  GenerateOffsetsTableName : Option TableNameGenerator := none
  PollInterval : Duration := 0
  Logger : Option Logger := none

/-- The subscriber of the package: `closed` is a channel value (`none` is nil)
and `subscriptionsByTopic` is the map, as its list of entries with distinct
keys. -/
structure subscriber where
  consumerGroup : String
  batchSize : Int
  closed : Option ChanId
  generateMessagesTableName : TableNameGenerator
  generateOffsetsTableName : TableNameGenerator
  logger : Logger
  subscriptionsByTopic : List (String × subscription)

/-- The map read `m[topic]`. -/
def mapLookup (m : List (String × subscription)) (topic : String) : Option subscription :=
  (m.find? fun entry => decide (entry.1 = topic)).map fun entry => entry.2

/-- The map delete `delete(m, topic)`. -/
def mapDelete (m : List (String × subscription)) (topic : String) :
    List (String × subscription) :=
  m.filter fun entry => decide (entry.1 ≠ topic)

/-- The map write `m[topic] = sub`. -/
def mapInsert (m : List (String × subscription)) (topic : String) (sub : subscription) :
    List (String × subscription) :=
  (topic, sub) :: mapDelete m topic

/-- NewSubscriber builds a subscriber; it makes the `closed` channel. -/
def NewSubscriber (env : Env) (w : World) (cfg : SubscriberConfiguration) :
    World × subscriber :=
  ({ w with nextChan := w.nextChan + 1 },
   { consumerGroup := cfg.ConsumerGroup
     batchSize := cmpOr 0 [cfg.BatchSize, 10]
     closed := some w.nextChan
     generateMessagesTableName :=
       cfg.GenerateMessagesTableName.getD env.DefaultMessagesTableNameGenerator
     generateOffsetsTableName :=
       cfg.GenerateOffsetsTableName.getD env.DefaultOffsetsTableNameGenerator
     logger := cfg.Logger.getD NewSlogLogger
     subscriptionsByTopic := [] })

/-- The text of the zero-value insertion of `Subscribe`. -/
def insertZeroOffsetSQL (offsetsTableName consumerGroup : String) : String :=
  "\n\t\tINSERT INTO '" ++ offsetsTableName ++ "' (consumer_group, offset_acked, offset_consumed)\n\t\tVALUES (\"" ++ consumerGroup ++ "\", 0, 0)\n\t\tON CONFLICT(consumer_group) DO NOTHING;\n\t"

/-- The text of the batch query of a subscription. -/
def nextMessageBatchSQL (messagesTableName offsetsTableName consumerGroup : String)
    (batchSize : Int) : String :=
  "\n\t\t\tSELECT\n\t\t\t\t\"offset\", uuid, created_at, payload, metadata\n\t\t\tFROM '" ++ messagesTableName ++ "'\n\t\t\tWHERE \"offset\" > (\n\t\t\t\tSELECT offset_acked FROM '" ++ offsetsTableName ++ "' WHERE consumer_group = \"" ++ consumerGroup ++ "\"\n\t\t\t)\n\t\t\tORDER BY offset LIMIT " ++ toString batchSize ++ ";\n\t\t"

/-- The text of the acknowledge statement of a subscription. -/
def acknowledgeMessageSQL (offsetsTableName consumerGroup : String) : String :=
  "\n\t\t\tUPDATE '" ++ offsetsTableName ++ "' SET offset_acked = ? WHERE consumer_group = \"" ++ consumerGroup ++ "\" AND offset_acked = ?;\n\t\t"

/-- An error return of `Subscribe` after the handle was opened:
`errors.Join(err, db.Close())`, the handle being dropped. -/
def subscribeFail (w : World) (s : subscriber) (db : DB) (err : GoError) :
    World × subscriber × Except GoError ChanId :=
  match db.Close with
  | (db, closeErr) =>
    ({ w with discarded := w.discarded ++ [db] }, s,
     match errorsJoin (some err) closeErr with
     | some joined => .error joined
     | none => .error err)

/-- Subscribe returns the outbound channel of the subscription of the topic,
which it creates when the registry has none. -/
def subscriber.Subscribe (env : Env) (w : World) (s : subscriber) (topic : String) :
    World × subscriber × Except GoError ChanId :=
  if w.recvReady s.closed then (w, s, .error ErrClosed)
  else
    match mapLookup s.subscriptionsByTopic topic with
    | some matched => (w, s, .ok matched.destination)
    | none =>
      let connected := env.Connect w.connectCalls
      let w := { w with connectCalls := w.connectCalls + 1 }
      match connected with
      | .error err => (w, s, .error err)
      | .ok db =>
        let messagesTableName := s.generateMessagesTableName topic
        let offsetsTableName := s.generateOffsetsTableName topic
        match env.createTopicAndOffsetsTablesIfAbsent db messagesTableName offsetsTableName with
        | (db, some err) => subscribeFail w s db err
        | (db, none) =>
        match db.Exec (insertZeroOffsetSQL offsetsTableName s.consumerGroup) [] with
        | (db, some err) => subscribeFail w s db err
        | (db, none) =>
        let matched : subscription :=
          { db := db
            ticker := Millisecond * 120
            sqlNextMessageBatch :=
              nextMessageBatchSQL messagesTableName offsetsTableName s.consumerGroup s.batchSize
            sqlAcknowledgeMessage := acknowledgeMessageSQL offsetsTableName s.consumerGroup
            destination := w.nextChan
            logger := s.logger }
        ({ w with nextChan := w.nextChan + 1
                  runners := w.runners ++ [(matched.destination, s.closed)] },
         { s with subscriptionsByTopic := mapInsert s.subscriptionsByTopic topic matched },
         .ok matched.destination)

/-- Unsubscribe closes the subscription of the topic and removes it from the
registry. -/
def subscriber.Unsubscribe (env : Env) (s : subscriber) (topic : String) :
    subscriber × Option GoError :=
  match mapLookup s.subscriptionsByTopic topic with
  | none => (s, none)
  | some sub =>
    match env.subscriptionClose sub with
    | some err => (s, some err)
    | none => ({ s with subscriptionsByTopic := mapDelete s.subscriptionsByTopic topic }, none)

/-- Close closes the `closed` channel, sets the field to nil, and closes every
subscription of the registry, joining their errors. -/
def subscriber.Close (env : Env) (w : World) (s : subscriber) :
    World × subscriber × Option GoError :=
  match s.closed with
  | none => (w, s, none)
  | some ch =>
    ({ w with closedChans := ch :: w.closedChans },
     { s with closed := none },
     s.subscriptionsByTopic.foldl
       (fun err entry => errorsJoin err (env.subscriptionClose entry.2)) none)

/-- A handle on a store that accepts every statement. -/
def acceptingDB : DB :=
  { answer := fun _ _ => none, closeAnswer := none, executed := [], closed := false }

/-- An environment in which every call succeeds: the bootstrap returns nil, the
default generators are the ones of the documentation, and every `Connect`
returns a fresh handle. -/
def acceptingEnv : Env :=
  { createTopicAndOffsetsTablesIfAbsent := fun db _ _ => (db, none)
    DefaultMessagesTableNameGenerator := fun topic => "watermill_" ++ topic
    DefaultOffsetsTableNameGenerator := fun topic => "watermill_offsets_" ++ topic
    Connect := fun _ => .ok acceptingDB
    jsonMarshal := fun _ => .ok []
    now := fun _ => "2006-01-02T15:04:05Z"
    subscriptionClose := fun _ => none }

/-- The world before anything was made, closed, opened or started. -/
def World.initial : World :=
  { nextChan := 0, closedChans := [], connectCalls := 0, runners := [], discarded := [] }

/-! ## Expiring keys (`wmsqlitemodernc/expiringkey.go`) -/

/-- The extended result code `sqlite3.SQLITE_CONSTRAINT_PRIMARYKEY` of
`modernc.org/sqlite/lib`: `SQLITE_CONSTRAINT | (6 << 8)`. -/
def SQLITE_CONSTRAINT_PRIMARYKEY : Int := 1555

/-- A `context.Context`, as far as the repository uses it: the background
context or one supplied by the caller. -/
inductive Context where
  | background
  | supplied (name : String)
  deriving DecidableEq, Repr

/-- The repository of expiring keys. -/
structure expiringKeyRepository where
  DB : DB
  StmtInsert : String
  StmtCleanUp : String
  Expiration : Duration

/-- ExpiringKeyRepositoryConfiguration intializes the expiring key repository in
the `NewExpiringKeyRepository` constructor; `none` is nil. -/
structure ExpiringKeyRepositoryConfiguration where
  Database : Option DB := none
  TableName : String := ""
  Expiration : Duration := 0
  CleanUpInterval : Duration := 0
  CleanUpContext : Option Context := none
  CleanUpLogger : Option Logger := none

/-- The clean-up goroutine that `NewExpiringKeyRepository` starts: the context
it ends with, the period of its ticker and its logger. -/
structure CleanUpRoutine where
  ctx : Context
  ticker : Duration
  logger : Logger
  deriving DecidableEq, Repr

/-- The `watermill.NewStdLogger(true, false)` value. -/
def NewStdLogger : Logger := { name := "std", fields := [] }

/-- The text of the statement that creates the table of expiring keys. -/
def createExpiringKeysTableSQL (tableName : String) : String :=
  "CREATE TABLE IF NOT EXISTS '" ++ tableName ++ "' (\n\t\t\tkey TEXT PRIMARY KEY NOT NULL,\n\t\t\texpires_at INTEGER NOT NULL\n\t\t);"

/-- NewExpiringKeyRepository creates a repository that tracks key duplicates
within a certain time frame, and starts the clean-up goroutine. The fields of
`config` that the constructor overwrites are the local values `tableName`,
`expiration` and `cleanUpInterval`; `validateTopicName` is the validator of the
package. -/
def NewExpiringKeyRepository (validateTopicName : String → Option GoError)
    (config : ExpiringKeyRepositoryConfiguration) :
    Except GoError (expiringKeyRepository × CleanUpRoutine) :=
  match config.Database with
  | none => .error (.new "SQLite connection is nil")
  | some database =>
    match (if config.TableName = "" then ("watermill_expiring_keys", none)
           else (config.TableName, validateTopicName config.TableName)) with
    | (_, some err) => .error (.errorf "table name does not match topic name rules: %w" [] err)
    | (tableName, none) =>
      let expiration : Duration :=
        if config.Expiration < Millisecond * 5 then Millisecond * 5 else config.Expiration
      let cleanUpInterval : Duration :=
        if config.CleanUpInterval = 0 then 15 * Second else config.CleanUpInterval
      let cleanUpContext := config.CleanUpContext.getD .background
      let cleanUpLogger := config.CleanUpLogger.getD NewStdLogger
      match database.Exec (createExpiringKeysTableSQL tableName) [.null] with
      | (_, some err) =>
        .error (.errorf "untable to create %q SQLite table: %w" [tableName] err)
      | (database, none) =>
        .ok
          ({ DB := database
             Expiration := expiration
             StmtInsert := "INSERT INTO '" ++ tableName ++ "' (key, expires_at) VALUES (?, ?)"
             StmtCleanUp := "DELETE FROM '" ++ tableName ++ "' WHERE expires_at<?" },
           { ctx := cleanUpContext, ticker := cleanUpInterval, logger := cleanUpLogger })

/-- IsDuplicate inserts the key with its expiry and reports whether the key
was there already. `now` is `time.Now()` in nanoseconds since the epoch. -/
def expiringKeyRepository.IsDuplicate (r : expiringKeyRepository) (key : String) (now : Int) :
    expiringKeyRepository × Bool × Option GoError :=
  match r.DB.Exec r.StmtInsert [.text key, .integer (now + r.Expiration)] with
  | (db, some err) =>
    match errorsAsSqlite err with
    | some code =>
      if code = SQLITE_CONSTRAINT_PRIMARYKEY then ({ r with DB := db }, true, none)
      else ({ r with DB := db }, true, some err)
    | none => ({ r with DB := db }, true, some err)
  | (db, none) => ({ r with DB := db }, false, none)

/-- CleanUp deletes the keys that expired before the time `untilNano`, in
nanoseconds since the epoch. -/
def expiringKeyRepository.CleanUp (r : expiringKeyRepository) (untilNano : Int) :
    expiringKeyRepository × Option GoError :=
  match r.DB.Exec r.StmtCleanUp [.integer untilNano] with
  | (db, err) => ({ r with DB := db }, err)

/-- A sequence of `Subscribe` calls on one subscriber, in order, whatever they
return: the world and the subscriber after the last. -/
def subscribeAll (env : Env) : World → subscriber → List String → World × subscriber
  | w, s, [] => (w, s)
  | w, s, topic :: topics =>
    subscribeAll env (s.Subscribe env w topic).1 (s.Subscribe env w topic).2.1 topics

/-! ## The text that the loop of `Publish` writes -/

/-- The text that the loop of `Publish` has written after `n` messages: `n`
copies of `(?,?,?,?),`. -/
def writtenGroups : Nat → String
  | 0 => ""
  | n + 1 => "(?,?,?,?)," ++ writtenGroups n

/-- The text of `n` copies of `,(?,?,?,?)`: what follows the first group in a
list of `n + 1` groups separated by commas. -/
def commaGroups : Nat → String
  | 0 => ""
  | n + 1 => ",(?,?,?,?)" ++ commaGroups n

/-- The statement of the specification for `n` messages: the head of the
insert, then `n` groups `(?,?,?,?)` separated by single commas. -/
def specInsertSQL (messagesTableName : String) (n : Nat) : String :=
  "INSERT INTO '" ++ messagesTableName ++ "' (uuid, created_at, payload, metadata) VALUES " ++
    ",".intercalate (List.replicate n "(?,?,?,?)")

end wmsqlitemodernc

/-! ## Theorems -/

namespace wmsqlitezombiezen

theorem isUpper_iff (c : Char) : c.isUpper = true ↔ (65 ≤ c.toNat ∧ c.toNat ≤ 90) := by
  unfold Char.isUpper Char.toNat
  simp only [Bool.and_eq_true, decide_eq_true_eq, ge_iff_le]
  rw [UInt32.le_def, UInt32.le_def, BitVec.le_def, BitVec.le_def]
  exact Iff.rfl

theorem isLower_iff (c : Char) : c.isLower = true ↔ (97 ≤ c.toNat ∧ c.toNat ≤ 122) := by
  unfold Char.isLower Char.toNat
  simp only [Bool.and_eq_true, decide_eq_true_eq, ge_iff_le]
  rw [UInt32.le_def, UInt32.le_def, BitVec.le_def, BitVec.le_def]
  exact Iff.rfl

theorem isDigit_iff (c : Char) : c.isDigit = true ↔ (48 ≤ c.toNat ∧ c.toNat ≤ 57) := by
  unfold Char.isDigit Char.toNat
  simp only [Bool.and_eq_true, decide_eq_true_eq, ge_iff_le]
  rw [UInt32.le_def, UInt32.le_def, BitVec.le_def, BitVec.le_def]
  exact Iff.rfl

/-- The negated class of the source matches exactly the code points outside the
class of the specification. -/
theorem matchRune_disallowed_iff (c : Char) :
    disallowedTopicCharacters.matchRune c = true ↔ ¬ InTopicClass c := by
  have hA : ('A').toNat = 65 := rfl
  have hZ : ('Z').toNat = 90 := rfl
  have ha : ('a').toNat = 97 := rfl
  have hz : ('z').toNat = 122 := rfl
  have h0 : ('0').toNat = 48 := rfl
  have h9 : ('9').toNat = 57 := rfl
  simp only [CharClassRegexp.matchRune, disallowedTopicCharacters, InTopicClass, ClassItem.has,
    Char.isAlphanum, Char.isAlpha, List.any_cons, List.any_nil, Bool.or_false, if_true,
    Bool.not_eq_true', Bool.or_eq_true, Bool.and_eq_true, decide_eq_true_eq, isUpper_iff,
    isLower_iff, isDigit_iff, List.mem_cons, List.mem_nil_iff, or_false, hA, hZ, ha, hz, h0, h9,
    ← Bool.not_eq_true]
  tauto

/-- The expression finds a match exactly when some code point of the string is
outside the class. -/
theorem MatchString_disallowed_iff (s : String) :
    disallowedTopicCharacters.MatchString s = true ↔ ∃ c ∈ s.data, ¬ InTopicClass c := by
  simp only [CharClassRegexp.MatchString, List.any_eq_true, matchRune_disallowed_iff]

/-- Every error of the validator wraps the invalid-topic-name sentinel. -/
theorem validateTopicName_wraps (name : String) (e : GoError)
    (h : validateTopicName name = some e) : errorsIs e .ErrInvalidTopicName = true := by
  unfold validateTopicName at h
  split_ifs at h <;> simp at h <;> subst h <;> simp [errorsIs]

/-- The validator accepts exactly the non-empty names over the class. -/
theorem validateTopicName_eq_none_iff (name : String) :
    validateTopicName name = none ↔ (name ≠ "" ∧ ∀ c ∈ name.data, InTopicClass c) := by
  unfold validateTopicName
  by_cases hm : disallowedTopicCharacters.MatchString name = true
  · have hm2 := (MatchString_disallowed_iff name).mp hm
    simp only [hm, if_true]
    constructor
    · intro h; simp at h
    · rintro ⟨_, hall⟩
      obtain ⟨c, hc, hn⟩ := hm2
      exact absurd (hall c hc) hn
  · have hall : ∀ c ∈ name.data, InTopicClass c := by
      intro c hc
      by_contra hn
      exact hm ((MatchString_disallowed_iff name).mpr ⟨c, hc, hn⟩)
    simp only [hm]
    by_cases he : name = ""
    · simp [he]
    · simp [he]
      exact hall

/-- C1: for every string `name`, `validateTopicName name` returns nil if and only
if `name` is non-empty and every character of `name` is in the class
`[A-Za-z0-9-$:._]`; in every other case the value returned is an error that
wraps `ErrInvalidTopicName`. -/
theorem C1_validateTopicName_contract (name : String) :
    (validateTopicName name = none ↔ (name ≠ "" ∧ ∀ c ∈ name.data, InTopicClass c)) ∧
    (validateTopicName name = none ∨
      ∃ e, validateTopicName name = some e ∧ errorsIs e .ErrInvalidTopicName = true) := by
  refine ⟨validateTopicName_eq_none_iff name, ?_⟩
  cases hv : validateTopicName name with
  | none => exact Or.inl rfl
  | some e => exact Or.inr ⟨e, rfl, validateTopicName_wraps name e hv⟩

/-- An invalid first name stops the bootstrap before any statement. -/
theorem createTables_invalid_messages_name (conn : Conn) (m o : String)
    (h : ¬ (m ≠ "" ∧ ∀ c ∈ m.data, InTopicClass c)) :
    ∃ e, createTopicAndOffsetsTablesIfAbsent conn m o = (conn, some e) ∧
      errorsIs e .ErrInvalidTopicName = true := by
  cases hv : validateTopicName m with
  | none => exact absurd ((validateTopicName_eq_none_iff m).mp hv) h
  | some e =>
    refine ⟨e, ?_, validateTopicName_wraps m e hv⟩
    simp [createTopicAndOffsetsTablesIfAbsent, hv]

/-- C2: with the messages table name `watermill_t` and a store that accepts
every statement, `createTopicAndOffsetsTablesIfAbsent` returns nil for every
offsets table name `o`, valid or not, and runs two statements, the second with
`o` spliced into it; the name `o' (x); DROP TABLE t; --` is one such name
outside the class. -/
theorem C2_offsets_table_name_is_not_validated :
    (∀ o : String,
      (createTopicAndOffsetsTablesIfAbsent acceptingConn "watermill_t" o).2 = none ∧
      (createTopicAndOffsetsTablesIfAbsent acceptingConn "watermill_t" o).1.executedStatements =
        [createMessagesTableSQL "watermill_t", createOffsetsTableSQL o]) ∧
    (∃ c ∈ "o' (x); DROP TABLE t; --".data, ¬ InTopicClass c) ∧
    createOffsetsTableSQL "o' (x); DROP TABLE t; --" =
      "CREATE TABLE IF NOT EXISTS 'o' (x); DROP TABLE t; --' (\n\t\t\tconsumer_group TEXT NOT NULL,\n\t\t\toffset_acked INTEGER NOT NULL,\n\t\t\tlocked_until INTEGER NOT NULL,\n\t\t\tPRIMARY KEY(consumer_group)\n\t\t);" := by
  refine ⟨?_, ?_, rfl⟩
  · intro o
    have hv : validateTopicName "watermill_t" = none := by decide
    simp [createTopicAndOffsetsTablesIfAbsent, hv, ExecuteTransient, acceptingConn,
      Conn.executedStatements]
  · exact ⟨' ', by decide, by decide⟩

/-- With the schema initialisation on, an open subscriber with the default
generators rejects a topic with a character outside the class before any
statement runs. -/
theorem Subscribe_initializeSchema_rejects (OpenConn : String → Except GoError Conn)
    (conn : Conn) (s : subscriber) (topic : String)
    (hopen : s.IsClosed = false) (hconn : OpenConn s.ConnectionDSN = .ok conn)
    (hinit : s.InitializeSchema = true)
    (hgen : s.TopicTableNameGenerator = fun topic => "watermill_" ++ topic)
    (hbad : ∃ c ∈ topic.data, ¬ InTopicClass c) :
    (∃ e, (s.Subscribe OpenConn topic).err = some e ∧ errorsIs e .ErrInvalidTopicName = true) ∧
    (s.Subscribe OpenConn topic).conn.map Conn.executedStatements
      = some conn.executedStatements := by
  have hname : ¬ (("watermill_" ++ topic) ≠ "" ∧
      ∀ c ∈ ("watermill_" ++ topic).data, InTopicClass c) := by
    rintro ⟨_, hall⟩
    obtain ⟨c, hc, hn⟩ := hbad
    exact hn (hall c (by simp [String.data_append, hc]))
  obtain ⟨e, he, hw⟩ := createTables_invalid_messages_name conn.SetInterrupt
    ("watermill_" ++ topic) (s.OffsetsTableNameGenerator topic) hname
  unfold subscriber.Subscribe
  simp only [hopen, hconn, hinit, hgen, he, if_true, Bool.false_eq_true, if_false]
  cases hc : conn.closeAnswer <;>
    simp [subscribeFail, Conn.Close, Conn.SetInterrupt, errorsJoin, errorsIs, hw, hc,
      Conn.executedStatements]

/-- C3: the subscriber that `NewSubscriber` builds from the default options
(default generators, `InitializeSchema` false), on a store that accepts every
statement, returns a nil error from `Subscribe` for every topic, valid or not,
and the one statement it runs to completion is the zero-value insertion with
the topic spliced into the table name; `a b` is one topic outside the class. -/
theorem C3_Subscribe_without_schema_does_not_validate :
    ∃ s, NewSubscriber "file:db.sqlite3" {} "id" = .ok s ∧ s.InitializeSchema = false ∧
      s.IsClosed = false ∧
      (∀ topic : String,
        (s.Subscribe (fun _ => .ok acceptingConn) topic).err = none ∧
        (s.Subscribe (fun _ => .ok acceptingConn) topic).conn.map Conn.executedStatements =
          some [insertZeroOffsetSQL ("watermill_offsets_" ++ topic) ""]) ∧
      (∃ c ∈ "a b".data, ¬ InTopicClass c) ∧
      insertZeroOffsetSQL ("watermill_offsets_" ++ "a b") "" =
        "\n\t\t\tINSERT INTO 'watermill_offsets_a b' (consumer_group, offset_acked, locked_until)\n\t\t\tVALUES (\"\", 0, 0)\n\t\t\tON CONFLICT(consumer_group) DO NOTHING;\n\t\t" := by
  refine ⟨_, rfl, rfl, rfl, ?_, ⟨' ', by decide, by decide⟩, rfl⟩
  intro topic
  constructor <;> rfl

theorem Millisecond_eq : Millisecond = 1000000 := by
  norm_num [Millisecond, Microsecond, Nanosecond]

theorem Second_eq : Second = 1000000000 := by
  norm_num [Second, Millisecond, Microsecond, Nanosecond]

theorem week_eq : Hour * 24 * 7 = 604800000000000 := by
  norm_num [Hour, Minute, Second, Millisecond, Microsecond, Nanosecond]

/-- The consumer group check of `NewSubscriber` passes exactly on the empty
group and on the groups over the class. -/
theorem groupCheck_eq_none_iff (group : String) :
    (if group ≠ "" then validateTopicName group else none) = none ↔
      ValidConsumerGroup group := by
  unfold ValidConsumerGroup
  by_cases hg : group = ""
  · simp [hg]
  · simp only [ne_eq, hg, not_false_eq_true, if_true, validateTopicName_eq_none_iff, true_and,
      false_or]

/-- What `NewSubscriber` returns when every field is one it accepts. -/
theorem NewSubscriber_ok (dsn : String) (o : SubscriberOptions) (ID : String)
    (hd : ValidDSN dsn) (hg : ValidConsumerGroup o.ConsumerGroup)
    (hb : ValidBatchSize o.BatchSize) (hp : ValidPollInterval o.PollInterval)
    (ha : ValidAckDeadline o.AckDeadline) :
    ∃ s, NewSubscriber dsn o ID = .ok s ∧ s.ConsumerGroup = o.ConsumerGroup ∧
      s.BatchSize = (if o.BatchSize = 0 then 100 else o.BatchSize) ∧
      s.PollInterval = (if o.PollInterval = 0 then 1000000000 else o.PollInterval) := by
  obtain ⟨hd1, hd2⟩ := hd
  obtain ⟨hb1, hb2⟩ := hb
  have hgc := (groupCheck_eq_none_iff o.ConsumerGroup).mpr hg
  have hb1' : ¬ o.BatchSize < 0 := not_lt.mpr hb1
  have hb2' : ¬ o.BatchSize > 1000000 := not_lt.mpr hb2
  have hp1 : ¬ (o.PollInterval ≠ 0 ∧ o.PollInterval < Millisecond) := by
    rw [Millisecond_eq]
    rintro ⟨h0, hlt⟩
    rcases hp with h | ⟨h, _⟩
    · exact h0 h
    · exact absurd hlt (not_lt.mpr h)
  have hp2 : ¬ o.PollInterval > Hour * 24 * 7 := by
    rw [week_eq]
    rcases hp with h | ⟨_, h⟩
    · rw [h]; norm_num
    · exact not_lt.mpr h
  obtain ⟨nack, hn⟩ : ∃ nack, selectNackChannel o.AckDeadline = .ok nack := by
    unfold selectNackChannel
    cases hdl : o.AckDeadline with
    | none => exact ⟨_, rfl⟩
    | some d =>
      rw [hdl] at ha
      have hd0 : ¬ d < 0 := not_lt.mpr ha
      by_cases hz : d = 0
      · exact ⟨.nilChannel, by simp [hz]⟩
      · exact ⟨.after d, by simp [hd0, hz]⟩
  unfold NewSubscriber
  rw [if_neg hd1, hd2, hgc]
  simp only [Bool.false_eq_true, if_false, if_neg hb1', if_neg hb2', if_neg hp1, if_neg hp2, hn]
  refine ⟨_, rfl, rfl, ?_, ?_⟩
  · by_cases hz : o.BatchSize = 0 <;> simp [cmpOr, hz]
  · by_cases hz : o.PollInterval = 0 <;> simp [cmpOr, hz, Second_eq]

/-- A consumer group that is not empty and has a character outside the class
makes `NewSubscriber` return an error that wraps `ErrInvalidTopicName`. -/
theorem NewSubscriber_invalid_group (dsn : String) (o : SubscriberOptions) (ID : String)
    (hd : ValidDSN dsn) (hg : ¬ ValidConsumerGroup o.ConsumerGroup) :
    ∃ e, NewSubscriber dsn o ID = .error e ∧ errorsIs e .ErrInvalidTopicName = true := by
  obtain ⟨hd1, hd2⟩ := hd
  have hne : o.ConsumerGroup ≠ "" := fun h => hg (Or.inl h)
  cases hv : validateTopicName o.ConsumerGroup with
  | none =>
    exact absurd (Or.inr ((validateTopicName_eq_none_iff _).mp hv).2) hg
  | some e =>
    refine ⟨.errorf
      "consumer group name must follow the same validation rules are topic names: %w" [] e,
      ?_, ?_⟩
    · unfold NewSubscriber
      rw [if_neg hd1, hd2]
      simp only [Bool.false_eq_true, if_false, ne_eq, hne, not_false_eq_true, if_true, hv]
    · simpa [errorsIs] using validateTopicName_wraps _ e hv

/-- A batch size below zero or above a million makes `NewSubscriber` return an
error. -/
theorem NewSubscriber_invalid_batchSize (dsn : String) (o : SubscriberOptions) (ID : String)
    (hb : o.BatchSize < 0 ∨ o.BatchSize > 1000000) :
    ∃ e, NewSubscriber dsn o ID = .error e := by
  unfold NewSubscriber
  by_cases h1 : dsn = ""
  · exact ⟨_, if_pos h1⟩
  rw [if_neg h1]
  by_cases h2 : stringsContains dsn ":memory:" = true
  · exact ⟨_, if_pos h2⟩
  rw [if_neg h2]
  cases (if o.ConsumerGroup ≠ "" then validateTopicName o.ConsumerGroup else none) with
  | some err => exact ⟨_, rfl⟩
  | none =>
    simp only []
    by_cases h3 : o.BatchSize < 0
    · exact ⟨_, if_pos h3⟩
    rw [if_neg h3]
    have h4 : o.BatchSize > 1000000 := by omega
    exact ⟨_, if_pos h4⟩

/-- A poll interval that is neither zero nor between one millisecond and seven
days makes `NewSubscriber` return an error. -/
theorem NewSubscriber_invalid_pollInterval (dsn : String) (o : SubscriberOptions) (ID : String)
    (hp : ¬ ValidPollInterval o.PollInterval) :
    ∃ e, NewSubscriber dsn o ID = .error e := by
  unfold ValidPollInterval at hp
  unfold NewSubscriber
  by_cases h1 : dsn = ""
  · exact ⟨_, if_pos h1⟩
  rw [if_neg h1]
  by_cases h2 : stringsContains dsn ":memory:" = true
  · exact ⟨_, if_pos h2⟩
  rw [if_neg h2]
  cases (if o.ConsumerGroup ≠ "" then validateTopicName o.ConsumerGroup else none) with
  | some err => exact ⟨_, rfl⟩
  | none =>
    simp only []
    by_cases h3 : o.BatchSize < 0
    · exact ⟨_, if_pos h3⟩
    rw [if_neg h3]
    by_cases h4 : o.BatchSize > 1000000
    · exact ⟨_, if_pos h4⟩
    rw [if_neg h4]
    by_cases h5 : o.PollInterval ≠ 0 ∧ o.PollInterval < Millisecond
    · exact ⟨_, if_pos h5⟩
    rw [if_neg h5]
    have h6 : o.PollInterval > Hour * 24 * 7 := by
      rw [Millisecond_eq] at h5
      rw [week_eq]
      by_contra h6
      apply hp
      by_cases h0 : o.PollInterval = 0
      · exact Or.inl h0
      · right
        constructor
        · by_contra hlt
          exact h5 ⟨h0, not_le.mp hlt⟩
        · exact not_lt.mp h6
    exact ⟨_, if_pos h6⟩

/-- A consumer group fails the check exactly when it is not empty and has a
character outside the class. -/
theorem not_validConsumerGroup_iff (group : String) :
    ¬ ValidConsumerGroup group ↔ (group ≠ "" ∧ ∃ c ∈ group.data, ¬ InTopicClass c) := by
  unfold ValidConsumerGroup
  rw [not_or]
  simp only [ne_eq, not_forall, exists_prop]

/-- C4: for every connection string and options that `NewSubscriber` accepts in
their other fields, it returns an error wrapping `ErrInvalidTopicName` if and
only if `ConsumerGroup` is non-empty and contains a character outside the class
`[A-Za-z0-9-$:._]`; otherwise (the empty group included) it succeeds and the
subscriber holds the group unchanged. -/
theorem C4_NewSubscriber_consumerGroup (dsn : String) (o : SubscriberOptions) (ID : String)
    (hd : ValidDSN dsn) (hb : ValidBatchSize o.BatchSize)
    (hp : ValidPollInterval o.PollInterval) (ha : ValidAckDeadline o.AckDeadline) :
    ((∃ e, NewSubscriber dsn o ID = .error e ∧ errorsIs e .ErrInvalidTopicName = true) ↔
      (o.ConsumerGroup ≠ "" ∧ ∃ c ∈ o.ConsumerGroup.data, ¬ InTopicClass c)) ∧
    ((o.ConsumerGroup = "" ∨ ∀ c ∈ o.ConsumerGroup.data, InTopicClass c) →
      ∃ s, NewSubscriber dsn o ID = .ok s ∧ s.ConsumerGroup = o.ConsumerGroup) := by
  constructor
  · constructor
    · rintro ⟨e, he, _⟩
      by_contra hbad
      have hg : ValidConsumerGroup o.ConsumerGroup := by
        by_contra hg
        exact hbad ((not_validConsumerGroup_iff _).mp hg)
      obtain ⟨s, hs, _⟩ := NewSubscriber_ok dsn o ID hd hg hb hp ha
      rw [hs] at he
      cases he
    · intro hbad
      exact NewSubscriber_invalid_group dsn o ID hd ((not_validConsumerGroup_iff _).mpr hbad)
  · intro hg
    obtain ⟨s, hs, hgroup, _⟩ := NewSubscriber_ok dsn o ID hd hg hb hp ha
    exact ⟨s, hs, hgroup⟩

/-- C4 at the connection string `file:db.sqlite3` and the group `a b`. -/
theorem C4_NewSubscriber_consumerGroup_witness :
    ValidDSN "file:db.sqlite3" ∧ ValidBatchSize 0 ∧ ValidPollInterval 0 ∧ ValidAckDeadline none ∧
    ((∃ e, NewSubscriber "file:db.sqlite3" { ConsumerGroup := "a b" } "id" = .error e ∧
        errorsIs e .ErrInvalidTopicName = true) ↔
      ("a b" ≠ "" ∧ ∃ c ∈ "a b".data, ¬ InTopicClass c)) :=
  ⟨⟨by decide, by decide⟩, ⟨by decide, by decide⟩, Or.inl rfl, trivial,
    (C4_NewSubscriber_consumerGroup "file:db.sqlite3" { ConsumerGroup := "a b" } "id"
      ⟨by decide, by decide⟩ ⟨by decide, by decide⟩ (Or.inl rfl) trivial).1⟩

/-- C6, as stated, fails at `BatchSize = 0`: `NewSubscriber` does not return an
error there, it returns a subscriber whose batch size is 100. -/
theorem C6_batchSize_zero_is_accepted :
    (¬ ∃ e, NewSubscriber "file:db.sqlite3" { BatchSize := 0 } "id" = .error e) ∧
    ∃ s, NewSubscriber "file:db.sqlite3" { BatchSize := 0 } "id" = .ok s ∧ s.BatchSize = 100 := by
  refine ⟨?_, _, rfl, rfl⟩
  rintro ⟨e, he⟩
  have hs : ∃ s, NewSubscriber "file:db.sqlite3" { BatchSize := 0 } "id" = .ok s := ⟨_, rfl⟩
  obtain ⟨s, hs⟩ := hs
  rw [hs] at he
  cases he

/-- C6, amended: for every connection string and options that `NewSubscriber`
accepts in their other fields, it returns an error for every `BatchSize < 0` and
every `BatchSize > 1,000,000`; for `BatchSize = 0` it succeeds with the batch
size 100; and for `1 <= BatchSize <= 1,000,000` it succeeds with exactly that
value as the batch size. -/
theorem C6_NewSubscriber_batchSize (dsn : String) (o : SubscriberOptions) (ID : String)
    (hd : ValidDSN dsn) (hg : ValidConsumerGroup o.ConsumerGroup)
    (hp : ValidPollInterval o.PollInterval) (ha : ValidAckDeadline o.AckDeadline) :
    ((o.BatchSize < 0 ∨ o.BatchSize > 1000000) → ∃ e, NewSubscriber dsn o ID = .error e) ∧
    (o.BatchSize = 0 → ∃ s, NewSubscriber dsn o ID = .ok s ∧ s.BatchSize = 100) ∧
    ((1 ≤ o.BatchSize ∧ o.BatchSize ≤ 1000000) →
      ∃ s, NewSubscriber dsn o ID = .ok s ∧ s.BatchSize = o.BatchSize) := by
  refine ⟨NewSubscriber_invalid_batchSize dsn o ID, ?_, ?_⟩
  · intro h0
    obtain ⟨s, hs, _, hbs, _⟩ := NewSubscriber_ok dsn o ID hd hg ⟨by omega, by omega⟩ hp ha
    exact ⟨s, hs, by rw [hbs, if_pos h0]⟩
  · rintro ⟨h1, h2⟩
    obtain ⟨s, hs, _, hbs, _⟩ := NewSubscriber_ok dsn o ID hd hg ⟨by omega, h2⟩ hp ha
    have hne : o.BatchSize ≠ 0 := by omega
    exact ⟨s, hs, by rw [hbs, if_neg hne]⟩

/-- C6, amended, at the connection string `file:db.sqlite3` and the batch
sizes -1, 0 and 7. -/
theorem C6_NewSubscriber_batchSize_witness :
    ValidDSN "file:db.sqlite3" ∧ ValidConsumerGroup "" ∧ ValidPollInterval 0 ∧
    ValidAckDeadline none ∧
    (∃ e, NewSubscriber "file:db.sqlite3" { BatchSize := -1 } "id" = .error e) ∧
    (∃ s, NewSubscriber "file:db.sqlite3" { BatchSize := 0 } "id" = .ok s ∧ s.BatchSize = 100) ∧
    (∃ s, NewSubscriber "file:db.sqlite3" { BatchSize := 7 } "id" = .ok s ∧ s.BatchSize = 7) :=
  ⟨⟨by decide, by decide⟩, Or.inl rfl, Or.inl rfl, trivial,
    (C6_NewSubscriber_batchSize "file:db.sqlite3" { BatchSize := -1 } "id"
      ⟨by decide, by decide⟩ (Or.inl rfl) (Or.inl rfl) trivial).1 (Or.inl (by decide)),
    (C6_NewSubscriber_batchSize "file:db.sqlite3" { BatchSize := 0 } "id"
      ⟨by decide, by decide⟩ (Or.inl rfl) (Or.inl rfl) trivial).2.1 rfl,
    (C6_NewSubscriber_batchSize "file:db.sqlite3" { BatchSize := 7 } "id"
      ⟨by decide, by decide⟩ (Or.inl rfl) (Or.inl rfl) trivial).2.2 ⟨by decide, by decide⟩⟩

/-- C7: for every connection string and options that `NewSubscriber` accepts in
their other fields, it succeeds if and only if `PollInterval` is zero or lies
between one millisecond and seven days (in nanoseconds), and on success the
poll interval of the subscriber is one second when `PollInterval` is zero and
`PollInterval` itself otherwise. -/
theorem C7_NewSubscriber_pollInterval (dsn : String) (o : SubscriberOptions) (ID : String)
    (hd : ValidDSN dsn) (hg : ValidConsumerGroup o.ConsumerGroup)
    (hb : ValidBatchSize o.BatchSize) (ha : ValidAckDeadline o.AckDeadline) :
    ((∃ s, NewSubscriber dsn o ID = .ok s) ↔
      (o.PollInterval = 0 ∨ (1000000 ≤ o.PollInterval ∧ o.PollInterval ≤ 604800000000000))) ∧
    (∀ s, NewSubscriber dsn o ID = .ok s →
      s.PollInterval = if o.PollInterval = 0 then 1000000000 else o.PollInterval) := by
  constructor
  · constructor
    · rintro ⟨s, hs⟩
      by_contra hp
      obtain ⟨e, he⟩ := NewSubscriber_invalid_pollInterval dsn o ID hp
      rw [hs] at he
      cases he
    · intro hp
      obtain ⟨s, hs, _⟩ := NewSubscriber_ok dsn o ID hd hg hb hp ha
      exact ⟨s, hs⟩
  · intro s hs
    have hp : ValidPollInterval o.PollInterval := by
      by_contra hp
      obtain ⟨e, he⟩ := NewSubscriber_invalid_pollInterval dsn o ID hp
      rw [hs] at he
      cases he
    obtain ⟨s', hs', _, _, hpi⟩ := NewSubscriber_ok dsn o ID hd hg hb hp ha
    rw [hs] at hs'
    cases hs'
    exact hpi

/-- C7 at the connection string `file:db.sqlite3` and a poll interval of half a
millisecond. -/
theorem C7_NewSubscriber_pollInterval_witness :
    ValidDSN "file:db.sqlite3" ∧ ValidConsumerGroup "" ∧ ValidBatchSize 0 ∧
    ValidAckDeadline none ∧
    ((∃ s, NewSubscriber "file:db.sqlite3" { PollInterval := 500000 } "id" = .ok s) ↔
      ((500000 : Duration) = 0 ∨
        (1000000 ≤ (500000 : Duration) ∧ (500000 : Duration) ≤ 604800000000000))) :=
  ⟨⟨by decide, by decide⟩, Or.inl rfl, ⟨by decide, by decide⟩, trivial,
    (C7_NewSubscriber_pollInterval "file:db.sqlite3" { PollInterval := 500000 } "id"
      ⟨by decide, by decide⟩ (Or.inl rfl) ⟨by decide, by decide⟩ trivial).1⟩

/-- C8: `NewSubscriber` rejects the connection string
`file::memory:?mode=memory&cache=shared`, whatever the options, with the error
whose text tells the caller to use that very string; it also rejects the empty
string and the bare `:memory:`. -/
theorem C8_shared_cache_memory_DSN_is_rejected (o : SubscriberOptions) (ID : String) :
    NewSubscriber "file::memory:?mode=memory&cache=shared" o ID =
      .error (.new "sqlite: \":memory:\" does not work with multiple connections, use \"file::memory:?mode=memory&cache=shared") ∧
    NewSubscriber ":memory:" o ID =
      .error (.new "sqlite: \":memory:\" does not work with multiple connections, use \"file::memory:?mode=memory&cache=shared") ∧
    NewSubscriber "" o ID = .error (.new "database connection DSN is empty") :=
  ⟨rfl, rfl, rfl⟩

/-- The default table names of two topics coincide exactly when the first topic
is `offsets_` followed by the second. -/
theorem default_names_eq_iff (t1 t2 : String) :
    "watermill_" ++ t1 = "watermill_offsets_" ++ t2 ↔ t1 = "offsets_" ++ t2 := by
  have hp : "watermill_offsets_" = "watermill_" ++ "offsets_" := by decide
  rw [hp, String.append_assoc]
  constructor
  · intro h
    have hd := congrArg String.data h
    rw [String.data_append, String.data_append] at hd
    exact String.ext (List.append_cancel_left hd)
  · intro h
    rw [h]

/-- C15, as stated, fails at the topics `offsets_x` and `x`: the validator
accepts both, and the default messages table of `offsets_x` is the default
offsets table of `x`, `watermill_offsets_x`. -/
theorem C15_offsets_prefixed_topic_collides :
    validateTopicName "offsets_x" = none ∧ validateTopicName "x" = none ∧
    ((({} : TableNameGenerators).WithDefaultGeneratorsInsteadOfNils.Topic.map
        fun generate => generate "offsets_x") = some "watermill_offsets_x") ∧
    ((({} : TableNameGenerators).WithDefaultGeneratorsInsteadOfNils.Offsets.map
        fun generate => generate "x") = some "watermill_offsets_x") := by
  refine ⟨by decide, by decide, rfl, rfl⟩

/-- C15, amended: for all topic names `t1` and `t2`, the messages table name of
the default Topic generator for `t1` equals the offsets table name of the
default Offsets generator for `t2` exactly when `t1` is `offsets_` followed by
`t2`; and the messages table of a topic is never the offsets table of the same
topic. -/
theorem C15_default_table_names_collide_iff (t1 t2 : String) :
    ((({} : TableNameGenerators).WithDefaultGeneratorsInsteadOfNils.Topic.map
        fun generate => generate t1) =
      (({} : TableNameGenerators).WithDefaultGeneratorsInsteadOfNils.Offsets.map
        fun generate => generate t2) ↔ t1 = "offsets_" ++ t2) ∧
    (({} : TableNameGenerators).WithDefaultGeneratorsInsteadOfNils.Topic.map
        fun generate => generate t1) ≠
      (({} : TableNameGenerators).WithDefaultGeneratorsInsteadOfNils.Offsets.map
        fun generate => generate t1) := by
  have hT : ∀ t, (({} : TableNameGenerators).WithDefaultGeneratorsInsteadOfNils.Topic.map
      fun generate => generate t) = some ("watermill_" ++ t) := fun _ => rfl
  have hO : ∀ t, (({} : TableNameGenerators).WithDefaultGeneratorsInsteadOfNils.Offsets.map
      fun generate => generate t) = some ("watermill_offsets_" ++ t) := fun _ => rfl
  rw [hT, hO, hO]
  simp only [Option.some.injEq, ne_eq]
  refine ⟨default_names_eq_iff t1 t2, ?_⟩
  rw [default_names_eq_iff]
  intro h
  have hl := congrArg String.length h
  rw [String.length_append] at hl
  have h8 : "offsets_".length = 8 := by decide
  omega

/-- On a group that SQLite reads as a string, with the legacy setting on and a
table keyed by group, the lease is exclusive: if the acquire at time `t`
returns a row, the acquire at any time `t'` with `t <= t' <= t + 5` on the
table it left returns no row and changes nothing. -/
theorem lock_is_exclusive_for_string_groups (engine : Engine) (G : String)
    (table table1 : List OffsetsRow) (returned : List Int) (t t' : Int)
    (hdq : engine.doubleQuotedStrings = true)
    (hres : resolveQuotedToken G = .stringLiteral G)
    (hkey : KeyedByGroup table) (h1 : t ≤ t') (h2 : t' ≤ t + 5)
    (hacq : stmtLockConsumerGroup engine graceSeconds G t table = some (table1, returned))
    (hrow : returned ≠ []) :
    stmtLockConsumerGroup engine graceSeconds G t' table1 = some (table1, []) := by
  have hg : graceSeconds = 5 := rfl
  have hp : groupPredicate engine G = some fun r => decide (r.consumer_group = G) := by
    simp [groupPredicate, hres, hdq]
  unfold stmtLockConsumerGroup at hacq ⊢
  rw [hp, hg] at hacq
  rw [hp, hg]
  simp only [Option.map_some', Option.some.injEq, Prod.mk.injEq] at hacq ⊢
  obtain ⟨htable, hret⟩ := hacq
  -- the row that the first acquire returned
  obtain ⟨r0, hr0, hhit0⟩ : ∃ r0 ∈ table,
      (decide (r0.consumer_group = G) && decide (r0.locked_until < t)) = true := by
    by_contra hnone
    apply hrow
    rw [← hret, List.map_eq_nil_iff, List.filter_eq_nil_iff]
    intro r hr hhit
    exact hnone ⟨r, hr, hhit⟩
  simp only [Bool.and_eq_true, decide_eq_true_eq] at hhit0
  -- no row of the table left behind is free for the group
  have hfree : ∀ r1 ∈ table1,
      (decide (r1.consumer_group = G) && decide (r1.locked_until < t')) = false := by
    intro r1 hr1
    rw [← htable, List.mem_map] at hr1
    obtain ⟨r, hr, rfl⟩ := hr1
    by_cases hc : r.consumer_group = G
    · have hrr : r = r0 := hkey r hr r0 hr0 (hc.trans hhit0.1.symm)
      subst hrr
      have hlt : ¬ (t + 5 < t') := by omega
      simp [hc, hhit0.2, hlt]
    · by_cases hl : r.locked_until < t <;> simp [hc, hl]
  constructor
  · calc table1.map (fun r =>
          if (decide (r.consumer_group = G) && decide (r.locked_until < t')) = true then
            { r with locked_until := t' + 5 } else r)
        = table1.map id := by
          apply List.map_congr_left
          intro r1 hr1
          rw [hfree r1 hr1]
          rfl
      _ = table1 := List.map_id _
  · rw [List.map_eq_nil_iff, List.filter_eq_nil_iff]
    intro r1 hr1
    rw [hfree r1 hr1]
    exact Bool.false_ne_true

/-- The exclusive lease at the group `g`, which SQLite reads as a string: on the
table with a free row of `g` and a row of `other` whose lease ends at 102, the
acquire at 100 returns the row of `g`, and the acquire at 103 returns no row. -/
theorem lock_is_exclusive_at_group_g :
    stmtLockConsumerGroup { doubleQuotedStrings := true, textEqualsInteger := fun _ _ => false }
        graceSeconds "g" 103
        [{ rowid := 1, consumer_group := "g", offset_acked := 7, locked_until := 105 },
         { rowid := 2, consumer_group := "other", offset_acked := 3, locked_until := 102 }] =
      some
        ([{ rowid := 1, consumer_group := "g", offset_acked := 7, locked_until := 105 },
          { rowid := 2, consumer_group := "other", offset_acked := 3, locked_until := 102 }],
         []) :=
  lock_is_exclusive_for_string_groups
    { doubleQuotedStrings := true, textEqualsInteger := fun _ _ => false } "g"
    [{ rowid := 1, consumer_group := "g", offset_acked := 7, locked_until := 0 },
     { rowid := 2, consumer_group := "other", offset_acked := 3, locked_until := 102 }]
    _ [7] 100 103 rfl (by decide) (by unfold KeyedByGroup; decide) (by decide) (by decide)
    (by decide) (by decide)

/-- C5: `NewSubscriber` accepts the consumer group `consumer_group`, for which
the lease-acquire statement prepared by `Subscribe` reads
`WHERE consumer_group="consumer_group" AND ...`; SQLite takes the quoted token
for the column, so the statement acts on the rows of every group. On the table
with a free row of that group and a row of the group `other` whose lease ends at
102, on every engine, the acquire at time 100 returns the row with offset 7, and
the acquire at time 103, inside the five seconds of that lease and with no
acknowledge write in between, returns a row again (offset 3, the row of `other`,
which it locks). -/
theorem C5_column_named_group_breaks_the_lease :
    (∃ s, NewSubscriber "file:db.sqlite3" { ConsumerGroup := "consumer_group" } "id" = .ok s ∧
      s.ConsumerGroup = "consumer_group") ∧
    lockConsumerGroupSQL "watermill_offsets_t" graceSeconds "consumer_group" =
      "UPDATE 'watermill_offsets_t' SET locked_until=(unixepoch()+5) WHERE consumer_group=\"consumer_group\" AND locked_until < unixepoch() RETURNING offset_acked" ∧
    ∀ engine : Engine,
      stmtLockConsumerGroup engine graceSeconds "consumer_group" 100 twoGroupTable =
        some
          ([{ rowid := 1, consumer_group := "consumer_group", offset_acked := 7,
              locked_until := 105 },
            { rowid := 2, consumer_group := "other", offset_acked := 3, locked_until := 102 }],
           [7]) ∧
      stmtLockConsumerGroup engine graceSeconds "consumer_group" 103
          [{ rowid := 1, consumer_group := "consumer_group", offset_acked := 7,
             locked_until := 105 },
           { rowid := 2, consumer_group := "other", offset_acked := 3, locked_until := 102 }] =
        some
          ([{ rowid := 1, consumer_group := "consumer_group", offset_acked := 7,
              locked_until := 105 },
            { rowid := 2, consumer_group := "other", offset_acked := 3, locked_until := 108 }],
           [3]) := by
  refine ⟨⟨_, rfl, rfl⟩, rfl, ?_⟩
  intro engine
  have hres : resolveQuotedToken "consumer_group" = .consumerGroupColumn := by decide
  constructor <;>
    simp [stmtLockConsumerGroup, groupPredicate, hres, twoGroupTable, graceSeconds]

end wmsqlitezombiezen

namespace wmsqlitemodernc

/-- C9: after `Close`, `Publish` with the empty list of messages returns nil,
for every publisher, environment and topic; and on a publisher that knows the
topic `t`, after `Close`, `Publish` of one message returns the error of the
closed database handle, which is not `ErrPublisherIsClosed`. -/
theorem C9_Publish_after_Close_is_not_rejected :
    (∀ (env : Env) (p : publisher) (topic : String),
      (p.Close.1.Publish env topic []).2 = none) ∧
    (∀ (logger : Logger) (msg : Message),
      ((publisher.Close
          { db := acceptingDB
            generateMessagesTableName := acceptingEnv.DefaultMessagesTableNameGenerator
            generateOffsetsTableName := acceptingEnv.DefaultOffsetsTableNameGenerator
            logger := logger
            knownTopics := ["t"] }).1.Publish acceptingEnv "t" [msg]).2 = some errDBClosed) ∧
    errorsIs errDBClosed .ErrPublisherIsClosed = false := by
  refine ⟨?_, ?_, rfl⟩
  · intro env p topic
    rfl
  · intro logger msg
    rfl

/-- C10: a subscriber fresh from `NewSubscriber` has, after `Close`, the nil
channel in its `closed` field, and a `Subscribe` made then calls `Connect`, for
every environment, world, configuration and topic; in an environment where
every call succeeds it returns a channel with a nil error, registers a
subscription for the topic and starts a runner that is handed the nil
channel. -/
theorem C10_Subscribe_after_Close_is_not_rejected :
    (∀ (env : Env) (w : World) (cfg : SubscriberConfiguration) (topic : String),
      ((NewSubscriber env w cfg).2.Close env (NewSubscriber env w cfg).1).2.1.closed = none ∧
      (((NewSubscriber env w cfg).2.Close env (NewSubscriber env w cfg).1).2.1.Subscribe env
          ((NewSubscriber env w cfg).2.Close env (NewSubscriber env w cfg).1).1
          topic).1.connectCalls = w.connectCalls + 1) ∧
    (∀ topic : String,
      (((NewSubscriber acceptingEnv World.initial {}).2.Close acceptingEnv
            (NewSubscriber acceptingEnv World.initial {}).1).2.1.Subscribe acceptingEnv
          ((NewSubscriber acceptingEnv World.initial {}).2.Close acceptingEnv
            (NewSubscriber acceptingEnv World.initial {}).1).1 topic).2.2 = .ok 1 ∧
      ((((NewSubscriber acceptingEnv World.initial {}).2.Close acceptingEnv
            (NewSubscriber acceptingEnv World.initial {}).1).2.1.Subscribe acceptingEnv
          ((NewSubscriber acceptingEnv World.initial {}).2.Close acceptingEnv
            (NewSubscriber acceptingEnv World.initial {}).1).1
          topic).2.1.subscriptionsByTopic.map fun entry => (entry.1, entry.2.destination))
        = [(topic, 1)] ∧
      (((NewSubscriber acceptingEnv World.initial {}).2.Close acceptingEnv
            (NewSubscriber acceptingEnv World.initial {}).1).2.1.Subscribe acceptingEnv
          ((NewSubscriber acceptingEnv World.initial {}).2.Close acceptingEnv
            (NewSubscriber acceptingEnv World.initial {}).1).1 topic).1.runners
        = [(1, none)]) := by
  constructor
  · intro env w cfg topic
    refine ⟨rfl, ?_⟩
    simp only [NewSubscriber, subscriber.Close, subscriber.Subscribe, World.recvReady, mapLookup,
      List.find?_nil, Option.map_none', Bool.false_eq_true, if_false]
    cases env.Connect w.connectCalls with
    | error err => rfl
    | ok db =>
      simp only []
      cases hb : env.createTopicAndOffsetsTablesIfAbsent db
        (cfg.GenerateMessagesTableName.getD env.DefaultMessagesTableNameGenerator topic)
        (cfg.GenerateOffsetsTableName.getD env.DefaultOffsetsTableNameGenerator topic) with
      | mk db1 err1 =>
        cases err1 with
        | some e => rfl
        | none =>
          simp only []
          cases hx : db1.Exec (insertZeroOffsetSQL
            (cfg.GenerateOffsetsTableName.getD env.DefaultOffsetsTableNameGenerator topic)
            cfg.ConsumerGroup) [] with
          | mk db2 err2 =>
            cases err2 with
            | some e => rfl
            | none => rfl
  · intro topic
    exact ⟨rfl, rfl, rfl⟩

/-- C11: for every repository, key and time, and so for every answer of the
store to the insert statement, `IsDuplicate` returns `(false, nil)` when the
insert succeeds, `(true, nil)` when it fails with an error in which `errors.As`
finds a `*sqlite.Error` with the code `SQLITE_CONSTRAINT_PRIMARYKEY`, and
`(true, err)` with the error of the store for every other failure; it never
returns `false` together with a non-nil error. -/
theorem C11_IsDuplicate_contract (r : expiringKeyRepository) (key : String) (now : Int) :
    (r.IsDuplicate key now).2 =
      (match (r.DB.Exec r.StmtInsert [.text key, .integer (now + r.Expiration)]).2 with
       | none => (false, none)
       | some err =>
         if errorsAsSqlite err = some SQLITE_CONSTRAINT_PRIMARYKEY then (true, none)
         else (true, some err)) ∧
    ((r.IsDuplicate key now).2.1 = true ∨ (r.IsDuplicate key now).2.2 = none) := by
  unfold expiringKeyRepository.IsDuplicate
  rcases hx : r.DB.Exec r.StmtInsert [.text key, .integer (now + r.Expiration)] with ⟨db, err⟩
  cases err with
  | none => exact ⟨rfl, Or.inr rfl⟩
  | some e =>
    simp only []
    cases hc : errorsAsSqlite e with
    | none => exact ⟨by simp, Or.inl rfl⟩
    | some code =>
      simp only []
      by_cases hpk : code = SQLITE_CONSTRAINT_PRIMARYKEY
      · rw [if_pos hpk]
        exact ⟨by simp [hpk], Or.inl rfl⟩
      · rw [if_neg hpk]
        exact ⟨by simp [hpk], Or.inl rfl⟩

/-- The expiration of a repository that `NewExpiringKeyRepository` returns is
the configured one, raised to five milliseconds when it is lower. -/
theorem NewExpiringKeyRepository_Expiration (validate : String → Option GoError)
    (config : ExpiringKeyRepositoryConfiguration) (r : expiringKeyRepository)
    (c : CleanUpRoutine) (h : NewExpiringKeyRepository validate config = .ok (r, c)) :
    r.Expiration = if config.Expiration < 5000000 then 5000000 else config.Expiration := by
  have hms : Millisecond * 5 = 5000000 := by
    norm_num [Millisecond, Microsecond, Nanosecond]
  unfold NewExpiringKeyRepository at h
  rw [hms] at h
  split at h
  · cases h
  · split at h
    · cases h
    · simp only [] at h
      split at h
      · cases h
      · simp only [Except.ok.injEq, Prod.mk.injEq] at h
        rw [← h.1]

/-- C12: with `Expiration` left at its zero value, on a store that accepts
every statement and whatever the validator, `NewExpiringKeyRepository` returns a
repository whose expiration is five milliseconds (5,000,000 ns), not one minute
(60,000,000,000 ns). -/
theorem C12_zero_Expiration_is_five_milliseconds (validate : String → Option GoError) :
    ∃ r c, NewExpiringKeyRepository validate { Database := some acceptingDB, Expiration := 0 } =
        .ok (r, c) ∧
      r.Expiration = 5000000 ∧ r.Expiration ≠ 60000000000 := by
  refine ⟨_, _, rfl, ?_, ?_⟩ <;> decide

/-- The accumulator of `String.intercalate` over copies of the group. -/
theorem intercalate_go_replicate (k : Nat) :
    ∀ acc : String, String.intercalate.go acc "," (List.replicate k "(?,?,?,?)") =
      acc ++ commaGroups k := by
  induction k with
  | zero => intro acc; simp [String.intercalate.go, commaGroups]
  | succ k ih =>
    intro acc
    rw [List.replicate_succ, String.intercalate.go, ih, commaGroups]
    simp only [String.append_assoc]
    rfl

/-- Groups separated by commas are the first group and the comma-led rest. -/
theorem intercalate_replicate_succ (k : Nat) :
    ",".intercalate (List.replicate (k + 1) "(?,?,?,?)") = "(?,?,?,?)" ++ commaGroups k := by
  rw [List.replicate_succ, String.intercalate, intercalate_go_replicate]

/-- Moving the comma from the end of each group to its front. -/
theorem writtenGroups_append_group (k : Nat) :
    writtenGroups k ++ "(?,?,?,?)" = "(?,?,?,?)" ++ commaGroups k := by
  induction k with
  | zero => rfl
  | succ k ih =>
    rw [writtenGroups, commaGroups, String.append_assoc, ih, ← String.append_assoc,
      ← String.append_assoc]
    rfl

/-- The written groups end with a group. -/
theorem writtenGroups_succ_eq (k : Nat) :
    writtenGroups (k + 1) = writtenGroups k ++ "(?,?,?,?)," := by
  induction k with
  | zero => rfl
  | succ k ih =>
    calc writtenGroups (k + 2) = "(?,?,?,?)," ++ writtenGroups (k + 1) := rfl
      _ = "(?,?,?,?)," ++ (writtenGroups k ++ "(?,?,?,?),") := by rw [ih]
      _ = ("(?,?,?,?)," ++ writtenGroups k) ++ "(?,?,?,?)," := by rw [String.append_assoc]
      _ = writtenGroups (k + 1) ++ "(?,?,?,?)," := rfl

/-- Trimming the commas at the right of a text that ends in `),` removes the
one comma. -/
theorem stringsTrimRight_group (s : String) :
    stringsTrimRight (s ++ "),") "," = s ++ ")" := by
  unfold stringsTrimRight
  apply String.ext
  simp [String.data_append]

/-- The statement that `Publish` hands to the store for `k + 1` messages. -/
theorem stringsTrimRight_writtenGroups (q : String) (k : Nat) :
    stringsTrimRight (q ++ writtenGroups (k + 1)) "," =
      q ++ ",".intercalate (List.replicate (k + 1) "(?,?,?,?)") := by
  rw [intercalate_replicate_succ, ← writtenGroups_append_group, writtenGroups_succ_eq]
  have h : q ++ (writtenGroups k ++ "(?,?,?,?),") = (q ++ writtenGroups k ++ "(?,?,?,?") ++ ")," := by
    simp only [String.append_assoc]
    rfl
  rw [h, stringsTrimRight_group]
  simp only [String.append_assoc]
  rfl

/-- When every metadata encodes, the loop of `Publish` ends with the groups
written after the query and four values per message after the values, in the
order of the messages. -/
theorem publishLoop_ok (env : Env) (msgs : List Message)
    (henc : ∀ msg ∈ msgs, ∃ b, env.jsonMarshal msg.Metadata = .ok b) :
    ∀ (i : Nat) (q : String) (vals : List Value),
      ∃ rows, publishLoop env i msgs q vals =
          .ok (q ++ writtenGroups msgs.length, vals ++ rows) ∧
        rows.length = 4 * msgs.length ∧
        ∀ k (hk : k < msgs.length),
          rows[4 * k]? = some (.text msgs[k].UUID) ∧
          rows[4 * k + 1]? = some (.text (env.now (i + k))) ∧
          rows[4 * k + 2]? = some (.bytes msgs[k].Payload) ∧
          rows[4 * k + 3]? = (env.jsonMarshal msgs[k].Metadata).toOption.map Value.bytes := by
  induction msgs with
  | nil =>
    intro i q vals
    refine ⟨[], ?_, rfl, ?_⟩
    · simp [publishLoop, writtenGroups]
    · intro k hk
      exact absurd hk (Nat.not_lt_zero k)
  | cons m ms ih =>
    intro i q vals
    obtain ⟨b, hb⟩ := henc m (List.mem_cons_self _ _)
    obtain ⟨rows', hloop, hlen, hrows⟩ :=
      ih (fun msg hmsg => henc msg (List.mem_cons_of_mem _ hmsg)) (i + 1) (q ++ "(?,?,?,?),")
        (vals ++ [.text m.UUID, .text (env.now i), .bytes m.Payload, .bytes b])
    refine ⟨[.text m.UUID, .text (env.now i), .bytes m.Payload, .bytes b] ++ rows', ?_, ?_, ?_⟩
    · rw [publishLoop, hb]
      simp only []
      rw [hloop, String.append_assoc, List.append_assoc]
      rfl
    · simp only [List.length_append, List.length_cons, List.length_nil, hlen]
      omega
    · intro k hk
      cases k with
      | zero =>
        simp [hb, Except.toOption]
      | succ k =>
        have hk' : k < ms.length := by
          simp only [List.length_cons] at hk
          omega
        obtain ⟨h0, h1, h2, h3⟩ := hrows k hk'
        have e0 : 4 * (k + 1) = 4 * k + 1 + 1 + 1 + 1 := by omega
        have e1 : 4 * (k + 1) + 1 = 4 * k + 1 + 1 + 1 + 1 + 1 := by omega
        have e2 : 4 * (k + 1) + 2 = 4 * k + 2 + 1 + 1 + 1 + 1 := by omega
        have e3 : 4 * (k + 1) + 3 = 4 * k + 3 + 1 + 1 + 1 + 1 := by omega
        have en : i + (k + 1) = i + 1 + k := by omega
        refine ⟨?_, ?_, ?_, ?_⟩
        · rw [e0]
          simpa [List.getElem?_cons_succ] using h0
        · rw [e1, en]
          simpa [List.getElem?_cons_succ] using h1
        · rw [e2]
          simpa [List.getElem?_cons_succ] using h2
        · rw [e3]
          simpa [List.getElem?_cons_succ] using h3

/-- What `Publish` does once the schema step has left the publisher `p1` with
an open handle: one `Exec` of the insert statement. -/
theorem publish_insert_step (env : Env) (p1 : publisher) (table : String)
    (messages : List Message) (hne : messages ≠ [])
    (henc : ∀ msg ∈ messages, ∃ b, env.jsonMarshal msg.Metadata = .ok b)
    (hopen : p1.db.closed = false) :
    ∃ args,
      (match publishLoop env 0 messages
          ("INSERT INTO '" ++ table ++ "' (uuid, created_at, payload, metadata) VALUES ") [] with
        | .error err => (p1, some err)
        | .ok (query, values) =>
          match p1.db.Exec (stringsTrimRight query ",") values with
          | (db, err) => (({ p1 with db := db } : publisher), err)) =
        (({ p1 with db :=
            { p1.db with executed := p1.db.executed ++
                [{ query := specInsertSQL table messages.length, args := args }] } } : publisher),
          p1.db.answer p1.db.executed
            { query := specInsertSQL table messages.length, args := args }) ∧
      args.length = 4 * messages.length ∧
      ∀ i (hi : i < messages.length),
        args[4 * i]? = some (.text messages[i].UUID) ∧
        args[4 * i + 2]? = some (.bytes messages[i].Payload) ∧
        args[4 * i + 3]? = (env.jsonMarshal messages[i].Metadata).toOption.map Value.bytes := by
  obtain ⟨rows, hloop, hlen, hrows⟩ := publishLoop_ok env messages henc 0
    ("INSERT INTO '" ++ table ++ "' (uuid, created_at, payload, metadata) VALUES ") []
  obtain ⟨k, hk⟩ : ∃ k, messages.length = k + 1 := by
    cases messages with
    | nil => exact absurd rfl hne
    | cons m ms => exact ⟨ms.length, rfl⟩
  refine ⟨rows, ?_, hlen, fun i hi => ⟨(hrows i hi).1, (hrows i hi).2.2.1, (hrows i hi).2.2.2⟩⟩
  rw [hloop]
  simp only [List.nil_append]
  rw [hk, stringsTrimRight_writtenGroups]
  simp only [DB.Exec, hopen, Bool.false_eq_true, if_false, specInsertSQL]

/-- C13, amended: for every publisher, topic and non-empty list of `n` messages
whose metadata all encode to JSON, when the schema step of `Publish` does not fail
(the topic is known, or the bootstrap returns nil) and leaves the handle `db1`
open, `Publish` runs on `db1` exactly one more statement, and returns the answer
of the store to it: its text is
`INSERT INTO '<messages table>' (uuid, created_at, payload, metadata) VALUES `
followed by `n` groups `(?,?,?,?)` separated by single commas, and its argument
list has length `4n`, with argument `4i` the UUID, argument `4i+2` the payload
and argument `4i+3` the JSON-encoded metadata of the `i`-th message. -/
theorem C13_Publish_insert_statement (env : Env) (p : publisher) (topic : String)
    (messages : List Message) (db1 : DB)
    (hne : messages ≠ [])
    (henc : ∀ msg ∈ messages, ∃ b, env.jsonMarshal msg.Metadata = .ok b)
    (hschema : topic ∈ p.knownTopics ∨
      (env.createTopicAndOffsetsTablesIfAbsent p.db (p.generateMessagesTableName topic)
        (p.generateOffsetsTableName topic)).2 = none)
    (hdb1 : db1 = if topic ∈ p.knownTopics then p.db else
      (env.createTopicAndOffsetsTablesIfAbsent p.db (p.generateMessagesTableName topic)
        (p.generateOffsetsTableName topic)).1)
    (hopen : db1.closed = false) :
    ∃ args,
      (p.Publish env topic messages).1.db.executed =
        db1.executed ++
          [{ query := specInsertSQL (p.generateMessagesTableName topic) messages.length,
             args := args }] ∧
      (p.Publish env topic messages).2 =
        db1.answer db1.executed
          { query := specInsertSQL (p.generateMessagesTableName topic) messages.length,
            args := args } ∧
      args.length = 4 * messages.length ∧
      ∀ i (hi : i < messages.length),
        args[4 * i]? = some (.text messages[i].UUID) ∧
        args[4 * i + 2]? = some (.bytes messages[i].Payload) ∧
        args[4 * i + 3]? = (env.jsonMarshal messages[i].Metadata).toOption.map Value.bytes := by
  have hlen : ¬ messages.length = 0 := fun h => hne (List.length_eq_zero.mp h)
  unfold publisher.Publish
  rw [if_neg hlen]
  by_cases hk : topic ∈ p.knownTopics
  · rw [if_pos hk] at hdb1
    subst hdb1
    obtain ⟨args, hstep, hrest⟩ :=
      publish_insert_step env p (p.generateMessagesTableName topic) messages hne henc hopen
    refine ⟨args, ?_, ?_, hrest⟩
    · simp only [hk, not_true_eq_false, if_false]
      rw [hstep]
    · simp only [hk, not_true_eq_false, if_false]
      rw [hstep]
  · rw [if_neg hk] at hdb1
    have hnone := hschema.resolve_left hk
    rcases hx : env.createTopicAndOffsetsTablesIfAbsent p.db (p.generateMessagesTableName topic)
      (p.generateOffsetsTableName topic) with ⟨db', err'⟩
    rw [hx] at hdb1 hnone
    simp only [] at hdb1 hnone
    subst hdb1
    subst hnone
    obtain ⟨args, hstep, hrest⟩ :=
      publish_insert_step env { p with db := db1, knownTopics := topic :: p.knownTopics }
        (p.generateMessagesTableName topic) messages hne henc hopen
    refine ⟨args, ?_, ?_, hrest⟩
    · simp only [hk, not_false_eq_true, if_true, hx]
      rw [hstep]
    · simp only [hk, not_false_eq_true, if_true, hx]
      rw [hstep]

/-- C13, amended, on a fresh publisher in an environment where every call
succeeds, the topic `t` and two messages. -/
theorem C13_Publish_insert_statement_witness :
    acceptingDB.closed = false ∧
    specInsertSQL "watermill_t" 2 =
      "INSERT INTO 'watermill_t' (uuid, created_at, payload, metadata) VALUES (?,?,?,?),(?,?,?,?)" ∧
    ∃ args,
      (publisher.Publish acceptingEnv
          { db := acceptingDB, generateMessagesTableName := fun topic => "watermill_" ++ topic,
            generateOffsetsTableName := fun topic => "watermill_offsets_" ++ topic,
            logger := NewSlogLogger, knownTopics := [] } "t"
          [{ UUID := "a", Metadata := [], Payload := [1] },
           { UUID := "b", Metadata := [("k", "v")], Payload := [2] }]).1.db.executed =
        acceptingDB.executed ++ [{ query := specInsertSQL "watermill_t" 2, args := args }] ∧
      args.length = 4 * 2 :=
  ⟨rfl, rfl,
    match C13_Publish_insert_statement acceptingEnv
        { db := acceptingDB, generateMessagesTableName := fun topic => "watermill_" ++ topic,
          generateOffsetsTableName := fun topic => "watermill_offsets_" ++ topic,
          logger := NewSlogLogger, knownTopics := [] } "t"
        [{ UUID := "a", Metadata := [], Payload := [1] },
         { UUID := "b", Metadata := [("k", "v")], Payload := [2] }] acceptingDB
        (by simp) (fun _ _ => ⟨[], rfl⟩) (Or.inr rfl) rfl rfl with
    | ⟨args, h1, _, h3, _⟩ => ⟨args, h1, h3⟩⟩

/-- The four ways a `Subscribe` call ends: the subscriber is closed; the
registry has the topic; the registry does not have it and a store call fails;
or a new subscription is registered. Only the last changes the subscriber, and
none changes the set of closed channels or the `closed` field. -/
theorem Subscribe_cases (env : Env) (w : World) (s : subscriber) (t : String) :
    (w.recvReady s.closed = true ∧ s.Subscribe env w t = (w, s, .error ErrClosed)) ∨
    (w.recvReady s.closed = false ∧
      ∃ sub, mapLookup s.subscriptionsByTopic t = some sub ∧
        s.Subscribe env w t = (w, s, .ok sub.destination)) ∨
    (w.recvReady s.closed = false ∧ mapLookup s.subscriptionsByTopic t = none ∧
      (s.Subscribe env w t).2.1 = s ∧
      (s.Subscribe env w t).1.closedChans = w.closedChans ∧
      ∃ e, (s.Subscribe env w t).2.2 = .error e) ∨
    (w.recvReady s.closed = false ∧ mapLookup s.subscriptionsByTopic t = none ∧
      (s.Subscribe env w t).1.closedChans = w.closedChans ∧
      ∃ matched,
        (s.Subscribe env w t).2.1 =
          { s with subscriptionsByTopic := mapInsert s.subscriptionsByTopic t matched } ∧
        (s.Subscribe env w t).2.2 = .ok matched.destination) := by
  by_cases hr : w.recvReady s.closed = true
  · left
    exact ⟨hr, by simp [subscriber.Subscribe, hr]⟩
  · right
    have hr' : w.recvReady s.closed = false := by simpa using hr
    cases hl : mapLookup s.subscriptionsByTopic t with
    | some sub =>
      left
      exact ⟨hr', sub, rfl, by simp [subscriber.Subscribe, hr', hl]⟩
    | none =>
      right
      unfold subscriber.Subscribe
      simp only [hr', Bool.false_eq_true, if_false, hl]
      cases env.Connect w.connectCalls with
      | error err => exact Or.inl ⟨trivial, trivial, rfl, rfl, err, rfl⟩
      | ok db =>
        simp only []
        rcases env.createTopicAndOffsetsTablesIfAbsent db (s.generateMessagesTableName t)
          (s.generateOffsetsTableName t) with ⟨db1, err1⟩
        cases err1 with
        | some e =>
          refine Or.inl ⟨trivial, trivial, rfl, rfl, ?_⟩
          simp only [subscribeFail]
          cases errorsJoin (some e) db1.Close.2 with
          | none => exact ⟨_, rfl⟩
          | some j => exact ⟨_, rfl⟩
        | none =>
          simp only []
          rcases db1.Exec (insertZeroOffsetSQL (s.generateOffsetsTableName t) s.consumerGroup)
            [] with ⟨db2, err2⟩
          cases err2 with
          | some e =>
            refine Or.inl ⟨trivial, trivial, rfl, rfl, ?_⟩
            simp only [subscribeFail]
            cases errorsJoin (some e) db2.Close.2 with
            | none => exact ⟨_, rfl⟩
            | some j => exact ⟨_, rfl⟩
          | none =>
            exact Or.inr ⟨trivial, trivial, rfl, _, rfl, rfl⟩

/-- A map read after a write of the same key. -/
theorem mapLookup_mapInsert_self (m : List (String × subscription)) (t : String)
    (x : subscription) : mapLookup (mapInsert m t x) t = some x := by
  simp [mapLookup, mapInsert]

/-- Filtering out the entries of one key does not change the first entry of
another key. -/
theorem find?_filter_ne (m : List (String × subscription)) (t topic : String)
    (hne : t ≠ topic) :
    List.find? (fun entry => decide (entry.1 = topic))
        (List.filter (fun entry => decide (entry.1 ≠ t)) m) =
      List.find? (fun entry => decide (entry.1 = topic)) m := by
  induction m with
  | nil => rfl
  | cons entry m ih =>
    rw [List.filter_cons]
    by_cases h2 : entry.1 = t
    · have hq : decide (entry.1 = topic) = false := by simp [h2, hne]
      have hp : decide (entry.1 ≠ t) = false := by simp [h2]
      rw [hp]
      simp only [Bool.false_eq_true, if_false]
      rw [ih, List.find?_cons, hq]
    · have hp : decide (entry.1 ≠ t) = true := by simp [h2]
      rw [hp]
      simp only [if_true]
      rw [List.find?_cons, List.find?_cons, ih]

/-- Deleting a key leaves the other keys as they were. -/
theorem mapLookup_mapDelete_ne (m : List (String × subscription)) (t topic : String)
    (hne : t ≠ topic) : mapLookup (mapDelete m t) topic = mapLookup m topic := by
  unfold mapLookup mapDelete
  rw [find?_filter_ne m t topic hne]

/-- A map read after a write of another key. -/
theorem mapLookup_mapInsert_ne (m : List (String × subscription)) (t topic : String)
    (x : subscription) (hne : t ≠ topic) :
    mapLookup (mapInsert m t x) topic = mapLookup m topic := by
  have h := mapLookup_mapDelete_ne m t topic hne
  have hq : decide (t = topic) = false := by simp [hne]
  unfold mapLookup at h ⊢
  unfold mapInsert
  rw [List.find?_cons]
  simp only [hq]
  exact h

/-- A `Subscribe` call, for any topic, keeps the subscription that the
registry holds for a topic. -/
theorem Subscribe_keeps_entry (env : Env) (w : World) (s : subscriber) (t topic : String)
    (sub : subscription) (h : mapLookup s.subscriptionsByTopic topic = some sub) :
    mapLookup (s.Subscribe env w t).2.1.subscriptionsByTopic topic = some sub := by
  rcases Subscribe_cases env w s t with
    ⟨_, he⟩ | ⟨_, _, _, he⟩ | ⟨_, _, he, _⟩ | ⟨_, hl, _, matched, he, _⟩
  · rw [he]; exact h
  · rw [he]; exact h
  · rw [he]; exact h
  · rw [he]
    have hne : t ≠ topic := by
      rintro rfl
      rw [hl] at h
      cases h
    simpa [mapLookup_mapInsert_ne _ _ _ _ hne] using h

/-- A `Subscribe` call keeps an open subscriber open. -/
theorem Subscribe_keeps_open (env : Env) (w : World) (s : subscriber) (t : String)
    (h : w.recvReady s.closed = false) :
    (s.Subscribe env w t).1.recvReady (s.Subscribe env w t).2.1.closed = false := by
  rcases Subscribe_cases env w s t with
    ⟨_, he⟩ | ⟨_, _, _, he⟩ | ⟨_, _, he, hc, _⟩ | ⟨_, _, hc, matched, he, _⟩
  · rw [he]; exact h
  · rw [he]; exact h
  · rw [he]
    cases hcl : s.closed with
    | none => rfl
    | some ch => simpa [World.recvReady, hcl, hc] using h
  · rw [he]
    cases hcl : s.closed with
    | none => rfl
    | some ch => simpa [World.recvReady, hcl, hc] using h

/-- A sequence of `Subscribe` calls keeps an open subscriber open and keeps the
subscription that the registry holds for a topic. -/
theorem subscribeAll_keeps (env : Env) (topic : String) (sub : subscription)
    (topics : List String) :
    ∀ (w : World) (s : subscriber), w.recvReady s.closed = false →
      mapLookup s.subscriptionsByTopic topic = some sub →
      (subscribeAll env w s topics).1.recvReady (subscribeAll env w s topics).2.closed = false ∧
      mapLookup (subscribeAll env w s topics).2.subscriptionsByTopic topic = some sub := by
  induction topics with
  | nil => intro w s ho hl; exact ⟨ho, hl⟩
  | cons t ts ih =>
    intro w s ho hl
    exact ih _ _ (Subscribe_keeps_open env w s t ho) (Subscribe_keeps_entry env w s t topic sub hl)

/-- After a `Subscribe` that returned a channel, the subscriber is open and the
registry holds for the topic a subscription with that channel. -/
theorem Subscribe_ok_registers (env : Env) (w : World) (s : subscriber) (topic : String)
    (c : ChanId) (h : (s.Subscribe env w topic).2.2 = .ok c) :
    (s.Subscribe env w topic).1.recvReady (s.Subscribe env w topic).2.1.closed = false ∧
    ∃ sub, mapLookup (s.Subscribe env w topic).2.1.subscriptionsByTopic topic = some sub ∧
      sub.destination = c := by
  rcases Subscribe_cases env w s topic with
    ⟨_, he⟩ | ⟨ho, sub, hl, he⟩ | ⟨_, _, _, _, e, he⟩ | ⟨ho, _, _, matched, he, hres⟩
  · rw [he] at h; cases h
  · refine ⟨Subscribe_keeps_open env w s topic ho, sub, ?_, ?_⟩
    · rw [he]; exact hl
    · rw [he] at h
      simpa using h
  · rw [he] at h; cases h
  · refine ⟨Subscribe_keeps_open env w s topic ho, matched, ?_, ?_⟩
    · rw [he]
      exact mapLookup_mapInsert_self _ _ _
    · rw [hres] at h
      simpa using h

/-- C14: for every subscriber, world and topic, if a `Subscribe` for the topic
returns the channel `c`, then after any sequence of further `Subscribe` calls
(for any topics, with no `Unsubscribe` and no `Close`) a `Subscribe` for the
same topic returns `c` with a nil error and leaves the world and the subscriber
as they were: no `Connect` call, no runner started, the registry unchanged. -/
theorem C14_Subscribe_same_topic_same_channel (env : Env) (w : World) (s : subscriber)
    (topic : String) (c : ChanId) (between : List String)
    (h : (s.Subscribe env w topic).2.2 = .ok c) :
    (subscribeAll env (s.Subscribe env w topic).1 (s.Subscribe env w topic).2.1 between).2.Subscribe
        env (subscribeAll env (s.Subscribe env w topic).1 (s.Subscribe env w topic).2.1 between).1
        topic =
      ((subscribeAll env (s.Subscribe env w topic).1 (s.Subscribe env w topic).2.1 between).1,
       (subscribeAll env (s.Subscribe env w topic).1 (s.Subscribe env w topic).2.1 between).2,
       .ok c) := by
  obtain ⟨ho, sub, hl, hc⟩ := Subscribe_ok_registers env w s topic c h
  obtain ⟨ho', hl'⟩ := subscribeAll_keeps env topic sub between _ _ ho hl
  generalize subscribeAll env (s.Subscribe env w topic).1 (s.Subscribe env w topic).2.1 between
    = st at ho' hl' ⊢
  rcases Subscribe_cases env st.1 st.2 topic with
    ⟨hr, _⟩ | ⟨_, sub', hl'', he⟩ | ⟨_, hn, _⟩ | ⟨_, hn, _⟩
  · rw [ho'] at hr; cases hr
  · rw [hl'] at hl''
    cases hl''
    rw [he, hc]
  · rw [hl'] at hn; cases hn
  · rw [hl'] at hn; cases hn

/-- C14 on a fresh subscriber in an environment where every call succeeds: a
`Subscribe` for `t` returns the channel 1, and after `Subscribe` calls for `u`
and `t` a `Subscribe` for `t` returns the channel 1 again. -/
theorem C14_Subscribe_same_topic_same_channel_witness :
    ((NewSubscriber acceptingEnv World.initial {}).2.Subscribe acceptingEnv
        (NewSubscriber acceptingEnv World.initial {}).1 "t").2.2 = .ok 1 ∧
    ((subscribeAll acceptingEnv
        ((NewSubscriber acceptingEnv World.initial {}).2.Subscribe acceptingEnv
          (NewSubscriber acceptingEnv World.initial {}).1 "t").1
        ((NewSubscriber acceptingEnv World.initial {}).2.Subscribe acceptingEnv
          (NewSubscriber acceptingEnv World.initial {}).1 "t").2.1 ["u", "t"]).2.Subscribe
      acceptingEnv
      (subscribeAll acceptingEnv
        ((NewSubscriber acceptingEnv World.initial {}).2.Subscribe acceptingEnv
          (NewSubscriber acceptingEnv World.initial {}).1 "t").1
        ((NewSubscriber acceptingEnv World.initial {}).2.Subscribe acceptingEnv
          (NewSubscriber acceptingEnv World.initial {}).1 "t").2.1 ["u", "t"]).1 "t").2.2 =
      .ok 1 :=
  ⟨rfl, congrArg (fun r => r.2.2)
    (C14_Subscribe_same_topic_same_channel acceptingEnv
      (NewSubscriber acceptingEnv World.initial {}).1
      (NewSubscriber acceptingEnv World.initial {}).2 "t" 1 ["u", "t"] rfl)⟩

/-- C13, as stated, fails on a publisher that was closed and on a topic whose
bootstrap fails: with one message whose metadata encodes, `Publish` to the known
topic `t` after `Close` runs no statement and returns the error of the closed
handle; and `Publish` to a new topic in an environment whose bootstrap returns
`ErrInvalidTopicName` runs no statement and returns that error. -/
theorem C13_no_insert_on_closed_handle_or_failed_bootstrap :
    (∃ b, acceptingEnv.jsonMarshal [("k", "v")] = .ok b) ∧
    (((publisher.Close
          { db := acceptingDB, generateMessagesTableName := fun topic => "watermill_" ++ topic,
            generateOffsetsTableName := fun topic => "watermill_offsets_" ++ topic,
            logger := NewSlogLogger, knownTopics := ["t"] }).1.Publish acceptingEnv "t"
        [{ UUID := "a", Metadata := [("k", "v")], Payload := [1] }]).1.db.executed = []) ∧
    (((publisher.Close
          { db := acceptingDB, generateMessagesTableName := fun topic => "watermill_" ++ topic,
            generateOffsetsTableName := fun topic => "watermill_offsets_" ++ topic,
            logger := NewSlogLogger, knownTopics := ["t"] }).1.Publish acceptingEnv "t"
        [{ UUID := "a", Metadata := [("k", "v")], Payload := [1] }]).2 = some errDBClosed) ∧
    ((publisher.Publish
        { acceptingEnv with
          createTopicAndOffsetsTablesIfAbsent := fun db _ _ =>
            (db, some (.sentinel .ErrInvalidTopicName)) }
        { db := acceptingDB, generateMessagesTableName := fun topic => "watermill_" ++ topic,
          generateOffsetsTableName := fun topic => "watermill_offsets_" ++ topic,
          logger := NewSlogLogger, knownTopics := [] } "bad name"
        [{ UUID := "a", Metadata := [("k", "v")], Payload := [1] }]).1.db.executed = []) ∧
    ((publisher.Publish
        { acceptingEnv with
          createTopicAndOffsetsTablesIfAbsent := fun db _ _ =>
            (db, some (.sentinel .ErrInvalidTopicName)) }
        { db := acceptingDB, generateMessagesTableName := fun topic => "watermill_" ++ topic,
          generateOffsetsTableName := fun topic => "watermill_offsets_" ++ topic,
          logger := NewSlogLogger, knownTopics := [] } "bad name"
        [{ UUID := "a", Metadata := [("k", "v")], Payload := [1] }]).2 =
      some (.sentinel .ErrInvalidTopicName)) :=
  ⟨⟨_, rfl⟩, rfl, rfl, rfl, rfl⟩

end wmsqlitemodernc

end Watermillsqlite
